import Mathlib

/-!
Verification of the OCI Core Services FastMCP server
(`oci_core_services_server.py`) against its specification.

The Python module wraps vendor SDK calls (OCI compute / network / database
clients), an external CLI subprocess, and JSON parsing.  Those external
effects are modelled as oracles: a `Vendor` structure of functions giving the
outcome of each vendor call (`Except String` mirrors "returns normally" vs
"raises an exception whose text is the string"), and an `Env` structure for
the process environment (client initialization outcome, the
`OCI_COMPARTMENT_ID` environment variable, and the current UTC time string).

Every embedded operation returns its result together with a trace of the
vendor calls it issued (`List VCall`), so that properties such as "no request
is sent before validation" or "the work request is never polled" are
statements about the trace.

Python `None` is modelled as `Option.none`; Python string truthiness
(`if s:`) is `truthy`; numeric vendor values irrelevant to control flow are
modelled as `Int` (the server never computes with them, it only copies and
prints them).  Dictionaries produced by the server are modelled as
association lists `List (String × JVal)` so that field-name sets can be
compared.
-/

namespace OciCore

/-- A JSON-like value, the shape of the LLM-friendly payloads the server
emits and of opaque vendor sub-objects it copies. -/
inductive JVal where
  | null
  | str (s : String)
  | num (n : Int)
  | bool (b : Bool)
  | arr (elems : List JVal)
  | obj (fields : List (String × JVal))

/-- A JSON object: an association list of fields, in emission order. -/
abbrev JObj := List (String × JVal)

/-- Python `x if x is not None else None` for strings lifted into `JVal`. -/
def optStr : Option String → JVal
  | some s => .str s
  | none => .null

/-- Optional numeric vendor value lifted into `JVal` (`None` becomes null). -/
def optNum : Option Int → JVal
  | some n => .num n
  | none => .null

/-- Optional boolean vendor value lifted into `JVal`. -/
def optBool : Option Bool → JVal
  | some b => .bool b
  | none => .null

/-- A string-valued dictionary (metadata, tags) lifted into `JVal`. -/
def strObj (l : List (String × String)) : JVal :=
  .obj (l.map (fun kv => (kv.1, .str kv.2)))

/-- Field access on an emitted object, `d[k]`; the keys the server reads
are always present in the objects it builds. -/
def getJ (d : JObj) (k : String) : JVal :=
  (d.lookup k).getD .null

/-- The string carried by a `JVal`, for fields the server formats into
summaries (those fields are strings in the source). -/
def jStr : JVal → String
  | .str s => s
  | _ => ""

/-- Boolean read of a `JVal` field (used for `nic['is_primary']`). -/
def jBool : JVal → Bool
  | .bool b => b
  | _ => false

/-- Python truthiness of a `JVal` (`if primary_nic['public_ip']:`). -/
def pyTruthyJ : JVal → Bool
  | .null => false
  | .str s => s != ""
  | .num n => n != 0
  | .bool b => b
  | .arr l => !l.isEmpty
  | .obj l => !l.isEmpty

/-- Python `str()` / f-string rendering of the scalar values the server
interpolates into summaries. -/
def pyShow : JVal → String
  | .null => "None"
  | .str s => s
  | .num n => toString n
  | .bool true => "True"
  | .bool false => "False"
  | .arr _ => ""
  | .obj _ => ""

/-- Python `s.upper()` (ASCII case mapping), written over the character list
so that it reduces in the kernel. -/
def pyUpper (s : String) : String := ⟨s.data.map Char.toUpper⟩

/-- Python `s.lower()` (ASCII case mapping). -/
def pyLower (s : String) : String := ⟨s.data.map Char.toLower⟩

/-- ASCII whitespace, as stripped by Python `str.strip()` on CLI output. -/
def isSpaceChar (c : Char) : Bool :=
  c == ' ' || c == '\t' || c == '\n' || c == '\r'

/-- Python `s.strip()`. -/
def pyStrip (s : String) : String :=
  ⟨((s.data.dropWhile isSpaceChar).reverse.dropWhile isSpaceChar).reverse⟩

/-- Python `s[:n]`. -/
def pyTake (s : String) (n : Nat) : String := ⟨s.data.take n⟩

/-- Python `sep.join(l)`. -/
def pyJoin (sep : String) : List String → String
  | [] => ""
  | [x] => x
  | x :: xs => x ++ sep ++ pyJoin sep xs

/-- Python string truthiness of an optional string: `None` and `""` are
falsy. -/
def truthy : Option String → Bool
  | none => false
  | some s => s != ""

/-- Python `a or b` on optional strings. -/
def pyOrStr (a b : Option String) : Option String :=
  if truthy a then a else b

/-- Python `x if x else None`: the listing helpers only forward a filter to
the vendor call when it is truthy (`if lifecycle_state:`). -/
def pyOpt (o : Option String) : Option String :=
  if truthy o then o else none

/-- Python `str(opt)` for optional numbers (`None` prints as `"None"`). -/
def pyShowOptNum : Option Int → String
  | some n => toString n
  | none => "None"

/-- The OCI config file contents the server reads (`from_file()`):
`config.get('region')` and `config.get('tenancy')`. -/
structure Config where
  region : Option String
  tenancy : Option String
deriving DecidableEq

/-- Process environment of the server.  `_initialize_clients` either loads
the config and creates all three SDK clients, or leaves config and all
clients `None`; `init` is `some cfg` exactly in the first case. -/
structure Env where
  init : Option Config
  ociCompartmentId : Option String
  now : String
deriving DecidableEq

/-- Result headers of an accepted vendor action request:
`response.headers.get('opc-work-request-id')` and
`response.headers.get('opc-request-id')`. -/
structure AcceptResp where
  workRequestId : Option String
  requestId : Option String
deriving DecidableEq

/-- A compute instance as returned by the vendor SDK (the attributes the
server reads). -/
structure OciInstance where
  id : String
  display_name : String
  shape : String
  lifecycle_state : String
  availability_domain : String
  compartment_id : String
  time_created : Option String
  image_id : String
  fault_domain : String
  metadata : Option (List (String × String))
  freeform_tags : Option (List (String × String))
  defined_tags : Option (List (String × String))
  extended_metadata : Option (List (String × String))
  launch_options : Option JObj
  instance_options : Option JObj
  availability_config : Option JObj
  agent_config : Option JObj

/-- A VNIC attachment as returned by `list_vnic_attachments`. -/
structure VnicAttachment where
  id : String
  vnic_id : String
  nic_index : Int

/-- A VNIC as returned by `get_vnic`. -/
structure Vnic where
  is_primary : Bool
  private_ip : String
  public_ip : Option String
  hostname_label : Option String
  mac_address : String
  subnet_id : String
  lifecycle_state : String
  skip_source_dest_check : Bool
  nsg_ids : Option (List String)

/-- A database system as returned by `list_db_systems` / `get_db_system`. -/
structure DbSystem where
  id : String
  display_name : String
  shape : String
  lifecycle_state : String
  availability_domain : String
  compartment_id : String
  time_created : Option String
  database_edition : String
  version : String
  node_count : Int
  cpu_core_count : Int
  data_storage_size_in_gbs : Int
  hostname : String
  domain : String
  freeform_tags : Option (List (String × String))
  defined_tags : Option (List (String × String))

/-- The `connection_urls` sub-object of an autonomous database. -/
structure ConnUrls where
  sql_dev_web_url : Option String
  apex_url : Option String
  graph_studio_url : Option String
  mongo_db_url : Option String
  ords_url : Option String

/-- An autonomous database as returned by the vendor SDK (the attributes the
server reads; numeric values are opaque to the server and modelled as
`Int`). -/
structure Adb where
  id : String
  display_name : String
  db_name : String
  lifecycle_state : String
  lifecycle_details : Option String
  db_workload : String
  db_version : String
  character_set : String
  ncharacter_set : String
  compute_model : String
  compute_count : Option Int
  cpu_core_count : Option Int
  data_storage_size_in_tbs : Option Int
  data_storage_size_in_gbs : Option Int
  provisionable_cpus : Option (List Int)
  is_auto_scaling_enabled : Bool
  is_auto_scaling_for_storage_enabled : Bool
  is_free_tier : Bool
  license_model : String
  whitelisted_ips : Option (List String)
  are_primary_whitelisted_ips_used : Option Bool
  connection_strings : Option JObj
  connection_urls : Option ConnUrls
  service_console_url : Option String
  time_created : Option String
  time_maintenance_begin : Option String
  time_maintenance_end : Option String
  time_deletion_of_free_autonomous_database : Option String
  vault_id : Option String
  kms_key_id : Option String
  encryption_key : Option JObj
  backup_retention_period_in_days : Option Int
  backup_config : Option JObj
  disaster_recovery_region_type : Option String
  standby_lag_time_in_seconds : Option Int
  role : Option String
  dataguard_region_type : Option String
  peer_db_ids : Option (List String)
  is_refreshable_clone : Option Bool
  refreshable_status : Option String
  refreshable_mode : Option String
  time_of_last_refresh : Option String
  time_of_last_refresh_point : Option String
  time_of_next_refresh : Option String
  supported_regions_to_clone_to : Option (List String)
  customer_contacts : Option (List JObj)
  compartment_id : String
  freeform_tags : Option (List (String × String))
  defined_tags : Option (List (String × String))
  system_tags : Option (List (String × String))

/-- `oci.database.models.UpdateAutonomousDatabaseDetails`: the update payload
built by `scale_autonomous_database_sdk`, all fields unset initially. -/
structure UpdateAutonomousDatabaseDetails where
  compute_count : Option Int := none
  cpu_core_count : Option Int := none
  data_storage_size_in_tbs : Option Int := none
  is_auto_scaling_enabled : Option Bool := none
  is_auto_scaling_for_storage_enabled : Option Bool := none
deriving DecidableEq

/-- Result of `subprocess.run(cmd, capture_output=True, text=True)`. -/
structure CliResult where
  returncode : Int
  stdout : String
  stderr : String
deriving DecidableEq

/-- The parsed JSON of the CLI's stdout: `json.loads(result.stdout)` followed
by `response.get('data', [])`.  Each element exposes the hyphenated keys the
server reads via `.get`, all optional. -/
structure CliInstance where
  id : Option String
  display_name : Option String
  shape : Option String
  lifecycle_state : Option String
  availability_domain : Option String
  compartment_id : Option String
  time_created : Option String
  image_id : Option String
  fault_domain : Option String
  metadata : Option (List (String × String))
  freeform_tags : Option (List (String × String))
  defined_tags : Option (List (String × String))

/-- Parsed CLI list response. -/
structure CliListResponse where
  data : List CliInstance

/-- One vendor-side call issued by the server: SDK client requests, the CLI
subprocess, and (never issued, see the fire-and-forget theorems) polling of a
work request. -/
inductive VCall where
  | listInstances (compartment_id lifecycle_state : String)
  | getInstance (instance_id : String)
  | listVnicAttachments (compartment_id instance_id : String)
  | getVnic (vnic_id : String)
  | instanceAction (instance_id action : String)
  | listDbSystems (compartment_id : String) (lifecycle_state : Option String)
  | getDbSystem (db_system_id : String)
  | startDbSystem (db_system_id : String)
  | stopDbSystem (db_system_id : String)
  | listAdbs (compartment_id : String) (lifecycle_state db_workload : Option String)
  | getAdb (adb_id : String)
  | startAdb (adb_id : String)
  | stopAdb (adb_id : String)
  | restartAdb (adb_id : String)
  | updateAdb (adb_id : String) (details : UpdateAutonomousDatabaseDetails)
  | pollWorkRequest (work_request_id : String)
  | cli (args : List String)
deriving DecidableEq

/-- Is this vendor call a poll of a work request? -/
def VCall.isPoll : VCall → Bool
  | .pollWorkRequest _ => true
  | _ => false

/-- Is this vendor call a CLI subprocess invocation? -/
def VCall.isCli : VCall → Bool
  | .cli _ => true
  | _ => false

/-- Is this vendor call an autonomous-database update request? -/
def VCall.isUpdateAdb : VCall → Bool
  | .updateAdb _ _ => true
  | _ => false

/-- The behavior of the external world: each field gives the outcome of one
kind of vendor call (`.error e` models the call raising an exception with
text `e`).  `cliRun` is the subprocess and `jsonParse` is `json.loads` on its
stdout. -/
structure Vendor where
  listInstances : String → String → Except String (List OciInstance)
  getInstance : String → Except String OciInstance
  listVnicAttachments : String → String → Except String (List VnicAttachment)
  getVnic : String → Except String Vnic
  instanceAction : String → String → Except String AcceptResp
  listDbSystems : String → Option String → Except String (List DbSystem)
  getDbSystem : String → Except String DbSystem
  startDbSystem : String → Except String AcceptResp
  stopDbSystem : String → Except String AcceptResp
  listAdbs : String → Option String → Option String → Except String (List Adb)
  getAdb : String → Except String Adb
  startAdb : String → Except String AcceptResp
  stopAdb : String → Except String AcceptResp
  restartAdb : String → Except String AcceptResp
  updateAdb : String → UpdateAutonomousDatabaseDetails → Except String AcceptResp
  cliRun : List String → CliResult
  jsonParse : String → Except String CliListResponse

/-- `get_compartment_id`: the `OCI_COMPARTMENT_ID` environment variable,
defaulting to the config's tenancy when the variable is falsy and the config
was loaded. -/
def get_compartment_id (env : Env) : Option String :=
  match env.init with
  | some cfg => if truthy env.ociCompartmentId then env.ociCompartmentId else cfg.tenancy
  | none => env.ociCompartmentId

/-- The region text used in listing summaries:
`config.get('region', 'unknown region') if config else 'unknown region'`. -/
def regionText (env : Env) : String :=
  match env.init with
  | some cfg => cfg.region.getD "unknown region"
  | none => "unknown region"

/-- The per-instance dictionary built by `list_instances_sdk` from a vendor
instance. -/
def sdk_instance_record (cfg : Config) (inst : OciInstance) : JObj :=
  [("id", .str inst.id),
   ("name", .str inst.display_name),
   ("shape", .str inst.shape),
   ("state", .str inst.lifecycle_state),
   ("availability_domain", .str inst.availability_domain),
   ("compartment_id", .str inst.compartment_id),
   ("created_time", optStr inst.time_created),
   ("region", .str (cfg.region.getD "unknown")),
   ("image_id", .str inst.image_id),
   ("fault_domain", .str inst.fault_domain),
   ("metadata", strObj (inst.metadata.getD [])),
   ("tags", .obj [("freeform", strObj (inst.freeform_tags.getD [])),
                  ("defined", strObj (inst.defined_tags.getD []))])]

/-- `list_instances_sdk`: raises when the SDK client is unavailable,
otherwise issues one `list_instances` vendor call and normalizes its data. -/
def list_instances_sdk (env : Env) (v : Vendor) (compartment_id lifecycle_state : String) :
    Except String (List JObj) × List VCall :=
  match env.init with
  | none => (.error "OCI SDK not available", [])
  | some cfg =>
    match v.listInstances compartment_id lifecycle_state with
    | .error e => (.error e, [.listInstances compartment_id lifecycle_state])
    | .ok data => (.ok (data.map (sdk_instance_record cfg)),
                   [.listInstances compartment_id lifecycle_state])

/-- The fixed argument shape of the CLI invocation in
`list_instances_cli_fallback`. -/
def cli_list_cmd (compartment_id lifecycle_state : String) : List String :=
  ["oci", "compute", "instance", "list",
   "--compartment-id", compartment_id,
   "--lifecycle-state", lifecycle_state,
   "--output", "json"]

/-- The per-instance dictionary built by `list_instances_cli_fallback` from
one element of the CLI's parsed `data` array. -/
def cli_instance_record (d : CliInstance) : JObj :=
  [("id", .str (d.id.getD "")),
   ("name", .str (d.display_name.getD "Unknown")),
   ("shape", .str (d.shape.getD "Unknown")),
   ("state", .str (d.lifecycle_state.getD "Unknown")),
   ("availability_domain", .str (d.availability_domain.getD "Unknown")),
   ("compartment_id", .str (d.compartment_id.getD "")),
   ("created_time", .str (d.time_created.getD "")),
   ("region", .str "unknown"),
   ("image_id", .str (d.image_id.getD "")),
   ("fault_domain", .str (d.fault_domain.getD "")),
   ("metadata", strObj (d.metadata.getD [])),
   ("tags", .obj [("freeform", strObj (d.freeform_tags.getD [])),
                  ("defined", strObj (d.defined_tags.getD []))])]

/-- `list_instances_cli_fallback`: run the CLI subprocess (the
`SUPPRESS_LABEL_WARNING` environment tweak has no observable effect here);
a non-zero exit raises, an empty (whitespace-only) stdout returns an empty
list, otherwise stdout is JSON-parsed and normalized. -/
def list_instances_cli_fallback (v : Vendor) (compartment_id lifecycle_state : String) :
    Except String (List JObj) × List VCall :=
  let cmd := cli_list_cmd compartment_id lifecycle_state
  let result := v.cliRun cmd
  if result.returncode != 0 then
    (.error ("CLI command failed: " ++ result.stderr), [.cli cmd])
  else if pyStrip result.stdout == "" then
    (.ok [], [.cli cmd])
  else
    match v.jsonParse result.stdout with
    | .error e => (.error e, [.cli cmd])
    | .ok resp => (.ok (resp.data.map cli_instance_record), [.cli cmd])

/-- The field names of the `tags` sub-object of a normalized instance
record. -/
def tagFieldNames (d : JObj) : List String :=
  match getJ d "tags" with
  | .obj fs => fs.map Prod.fst
  | _ => []

/-- The detailed instance dictionary built by `get_instance_details_sdk`. -/
def instance_details_record (cfg : Config) (inst : OciInstance) : JObj :=
  [("id", .str inst.id),
   ("name", .str inst.display_name),
   ("shape", .str inst.shape),
   ("state", .str inst.lifecycle_state),
   ("availability_domain", .str inst.availability_domain),
   ("compartment_id", .str inst.compartment_id),
   ("created_time", optStr inst.time_created),
   ("region", .str (cfg.region.getD "unknown")),
   ("image_id", .str inst.image_id),
   ("fault_domain", .str inst.fault_domain),
   ("metadata", strObj (inst.metadata.getD [])),
   ("extended_metadata", strObj (inst.extended_metadata.getD [])),
   ("tags", .obj [("freeform", strObj (inst.freeform_tags.getD [])),
                  ("defined", strObj (inst.defined_tags.getD []))]),
   ("configuration", .obj
     [("launch_options", .obj (inst.launch_options.getD [])),
      ("instance_options", .obj (inst.instance_options.getD [])),
      ("availability_config", .obj (inst.availability_config.getD [])),
      ("agent_config", .obj (inst.agent_config.getD []))])]

/-- `get_instance_details_sdk`: one `get_instance` vendor call, normalized. -/
def get_instance_details_sdk (env : Env) (v : Vendor) (instance_id : String) :
    Except String JObj × List VCall :=
  match env.init with
  | none => (.error "OCI SDK not available", [])
  | some cfg =>
    match v.getInstance instance_id with
    | .error e => (.error e, [.getInstance instance_id])
    | .ok inst => (.ok (instance_details_record cfg inst), [.getInstance instance_id])

/-- The per-VNIC dictionary built by `get_instance_network_info_sdk`. -/
def vnic_record (att : VnicAttachment) (vnic : Vnic) : JObj :=
  [("attachment_id", .str att.id),
   ("vnic_id", .str att.vnic_id),
   ("is_primary", .bool vnic.is_primary),
   ("private_ip", .str vnic.private_ip),
   ("public_ip", optStr vnic.public_ip),
   ("hostname", optStr vnic.hostname_label),
   ("mac_address", .str vnic.mac_address),
   ("subnet_id", .str vnic.subnet_id),
   ("nic_index", .num att.nic_index),
   ("state", .str vnic.lifecycle_state),
   ("skip_source_dest_check", .bool vnic.skip_source_dest_check),
   ("security_groups", .arr ((vnic.nsg_ids.getD []).map .str))]

/-- `get_instance_network_info_sdk`: lists VNIC attachments and fetches each
VNIC; a VNIC-detail failure is logged and skipped, a listing failure is
caught by the method's own handler, which returns an empty list.  Only the
initial clients-unavailable check raises. -/
def get_instance_network_info_sdk (env : Env) (v : Vendor)
    (instance_id compartment_id : String) : Except String (List JObj) × List VCall :=
  match env.init with
  | none => (.error "OCI SDK clients not available", [])
  | some _ =>
    match v.listVnicAttachments compartment_id instance_id with
    | .error _ => (.ok [], [.listVnicAttachments compartment_id instance_id])
    | .ok atts =>
      (.ok (atts.filterMap (fun a =>
         match v.getVnic a.vnic_id with
         | .ok vn => some (vnic_record a vn)
         | .error _ => none)),
       .listVnicAttachments compartment_id instance_id :: atts.map (fun a => .getVnic a.vnic_id))

/-- The fixed allow-list of instance lifecycle actions. -/
def validInstanceActions : List String := ["START", "STOP", "SOFTRESET", "RESET", "SOFTSTOP"]

/-- The action result dictionary of `instance_action_sdk`. -/
structure InstanceActionResult where
  instance_id : String
  instance_name : String
  action : String
  previous_state : String
  work_request_id : Option String
  request_id : Option String
  initiated_at : String
deriving DecidableEq

/-- `instance_action_sdk`: availability check, allow-list validation, then a
preliminary `get_instance` followed by the `instance_action` request; returns
as soon as the request is accepted. -/
def instance_action_sdk (env : Env) (v : Vendor) (instance_id action : String)
    (compartment_id : Option String := none) :
    Except String InstanceActionResult × List VCall :=
  match env.init with
  | none => (.error "OCI SDK not available", [])
  | some _ =>
    if validInstanceActions.contains (pyUpper action) = false then
      (.error ("Invalid action \x27" ++ action ++ "\x27. Valid actions: " ++
               pyJoin ", " validInstanceActions), [])
    else
      match v.getInstance instance_id with
      | .error e => (.error e, [.getInstance instance_id])
      | .ok inst =>
        match v.instanceAction instance_id (pyUpper action) with
        | .error e => (.error e, [.getInstance instance_id,
                                  .instanceAction instance_id (pyUpper action)])
        | .ok r =>
          (.ok { instance_id, instance_name := inst.display_name, action := (pyUpper action),
                 previous_state := inst.lifecycle_state, work_request_id := r.workRequestId,
                 request_id := r.requestId, initiated_at := env.now ++ "Z" },
           [.getInstance instance_id, .instanceAction instance_id (pyUpper action)])

/-- The state dictionary of `get_instance_state_sdk`. -/
structure InstanceStateInfo where
  instance_id : String
  instance_name : String
  lifecycle_state : String
  shape : String
  availability_domain : String
  compartment_id : String
  time_created : Option String
  retrieved_at : String
deriving DecidableEq

/-- `get_instance_state_sdk`: one `get_instance` call, state fields copied
unmodified. -/
def get_instance_state_sdk (env : Env) (v : Vendor) (instance_id : String) :
    Except String InstanceStateInfo × List VCall :=
  match env.init with
  | none => (.error "OCI SDK not available", [])
  | some _ =>
    match v.getInstance instance_id with
    | .error e => (.error e, [.getInstance instance_id])
    | .ok inst =>
      (.ok { instance_id, instance_name := inst.display_name,
             lifecycle_state := inst.lifecycle_state, shape := inst.shape,
             availability_domain := inst.availability_domain,
             compartment_id := inst.compartment_id,
             time_created := inst.time_created, retrieved_at := env.now ++ "Z" },
       [.getInstance instance_id])

/-- The per-database-system dictionary built by `list_databases_sdk`. -/
def db_system_record (db : DbSystem) : JObj :=
  [("id", .str db.id),
   ("display_name", .str db.display_name),
   ("shape", .str db.shape),
   ("lifecycle_state", .str db.lifecycle_state),
   ("availability_domain", .str db.availability_domain),
   ("compartment_id", .str db.compartment_id),
   ("time_created", optStr db.time_created),
   ("database_edition", .str db.database_edition),
   ("version", .str db.version),
   ("node_count", .num db.node_count),
   ("cpu_core_count", .num db.cpu_core_count),
   ("data_storage_size_in_gbs", .num db.data_storage_size_in_gbs),
   ("hostname", .str db.hostname),
   ("domain", .str db.domain),
   ("tags", .obj [("freeform", strObj (db.freeform_tags.getD [])),
                  ("defined", strObj (db.defined_tags.getD []))])]

/-- `list_databases_sdk`: one `list_db_systems` call; the lifecycle-state
filter is only forwarded when truthy. -/
def list_databases_sdk (env : Env) (v : Vendor) (compartment_id : String)
    (lifecycle_state : Option String := none) :
    Except String (List JObj) × List VCall :=
  match env.init with
  | none => (.error "OCI Database SDK not available", [])
  | some _ =>
    match v.listDbSystems compartment_id (pyOpt lifecycle_state) with
    | .error e => (.error e, [.listDbSystems compartment_id (pyOpt lifecycle_state)])
    | .ok data => (.ok (data.map db_system_record),
                   [.listDbSystems compartment_id (pyOpt lifecycle_state)])

/-- The fixed allow-list of database-system lifecycle actions. -/
def validDatabaseActions : List String := ["START", "STOP"]

/-- The action result dictionary of `database_action_sdk`. -/
structure DbActionResult where
  db_system_id : String
  db_system_name : String
  action : String
  previous_state : String
  work_request_id : Option String
  request_id : Option String
  initiated_at : String
deriving DecidableEq

/-- The `if action.upper() == "START" ... elif ... == "STOP"` dispatch of
`database_action_sdk`.  The final branch is unreachable after validation: in
the source, `response` would be unbound there and reading it would raise a
`NameError`. -/
def db_action_dispatch (v : Vendor) (db_system_id A : String) :
    Except String AcceptResp × List VCall :=
  if A == "START" then (v.startDbSystem db_system_id, [.startDbSystem db_system_id])
  else if A == "STOP" then (v.stopDbSystem db_system_id, [.stopDbSystem db_system_id])
  else (.error "name \x27response\x27 is not defined", [])

/-- `database_action_sdk`: availability check, allow-list validation, then a
preliminary `get_db_system` followed by the start/stop request; returns as
soon as the request is accepted. -/
def database_action_sdk (env : Env) (v : Vendor) (db_system_id action : String) :
    Except String DbActionResult × List VCall :=
  match env.init with
  | none => (.error "OCI Database SDK not available", [])
  | some _ =>
    if validDatabaseActions.contains (pyUpper action) = false then
      (.error ("Invalid database action \x27" ++ action ++ "\x27. Valid actions: " ++
               pyJoin ", " validDatabaseActions), [])
    else
      match v.getDbSystem db_system_id with
      | .error e => (.error e, [.getDbSystem db_system_id])
      | .ok db =>
        match db_action_dispatch v db_system_id (pyUpper action) with
        | (.error e, t) => (.error e, .getDbSystem db_system_id :: t)
        | (.ok r, t) =>
          (.ok { db_system_id, db_system_name := db.display_name, action := (pyUpper action),
                 previous_state := db.lifecycle_state, work_request_id := r.workRequestId,
                 request_id := r.requestId, initiated_at := env.now ++ "Z" },
           .getDbSystem db_system_id :: t)

/-- The state dictionary of `get_database_state_sdk`. -/
structure DbStateInfo where
  db_system_id : String
  db_system_name : String
  lifecycle_state : String
  shape : String
  database_edition : String
  version : String
  node_count : Int
  cpu_core_count : Int
  availability_domain : String
  compartment_id : String
  time_created : Option String
  retrieved_at : String
deriving DecidableEq

/-- `get_database_state_sdk`: one `get_db_system` call, state fields copied
unmodified. -/
def get_database_state_sdk (env : Env) (v : Vendor) (db_system_id : String) :
    Except String DbStateInfo × List VCall :=
  match env.init with
  | none => (.error "OCI Database SDK not available", [])
  | some _ =>
    match v.getDbSystem db_system_id with
    | .error e => (.error e, [.getDbSystem db_system_id])
    | .ok db =>
      (.ok { db_system_id, db_system_name := db.display_name,
             lifecycle_state := db.lifecycle_state, shape := db.shape,
             database_edition := db.database_edition, version := db.version,
             node_count := db.node_count, cpu_core_count := db.cpu_core_count,
             availability_domain := db.availability_domain,
             compartment_id := db.compartment_id, time_created := db.time_created,
             retrieved_at := env.now ++ "Z" },
       [.getDbSystem db_system_id])

/-- The `connection_urls` fields extracted per-URL in the autonomous-database
listing record (also the attribute dictionary used by the details record). -/
def conn_urls_fields (u : ConnUrls) : JObj :=
  [("sql_dev_web_url", optStr u.sql_dev_web_url),
   ("apex_url", optStr u.apex_url),
   ("graph_studio_url", optStr u.graph_studio_url),
   ("mongo_db_url", optStr u.mongo_db_url),
   ("ords_url", optStr u.ords_url)]

/-- The per-autonomous-database dictionary built by
`list_autonomous_databases_sdk`. -/
def adb_record (adb : Adb) : JObj :=
  [("id", .str adb.id),
   ("display_name", .str adb.display_name),
   ("db_name", .str adb.db_name),
   ("lifecycle_state", .str adb.lifecycle_state),
   ("lifecycle_details", optStr adb.lifecycle_details),
   ("db_workload", .str adb.db_workload),
   ("db_version", .str adb.db_version),
   ("compute_model", .str adb.compute_model),
   ("compute_count", optNum adb.compute_count),
   ("cpu_core_count", optNum adb.cpu_core_count),
   ("data_storage_size_in_tbs", optNum adb.data_storage_size_in_tbs),
   ("data_storage_size_in_gbs", optNum adb.data_storage_size_in_gbs),
   ("is_auto_scaling_enabled", .bool adb.is_auto_scaling_enabled),
   ("is_auto_scaling_for_storage_enabled", .bool adb.is_auto_scaling_for_storage_enabled),
   ("is_free_tier", .bool adb.is_free_tier),
   ("license_model", .str adb.license_model),
   ("whitelisted_ips", .arr ((adb.whitelisted_ips.getD []).map .str)),
   ("time_created", optStr adb.time_created),
   ("compartment_id", .str adb.compartment_id),
   ("connection_urls", match adb.connection_urls with
     | some u => .obj (conn_urls_fields u)
     | none => .obj []),
   ("service_console_url", optStr adb.service_console_url),
   ("is_refreshable_clone", optBool adb.is_refreshable_clone),
   ("refreshable_status", optStr adb.refreshable_status),
   ("refreshable_mode", optStr adb.refreshable_mode),
   ("time_of_last_refresh", optStr adb.time_of_last_refresh),
   ("tags", .obj [("freeform", strObj (adb.freeform_tags.getD [])),
                  ("defined", strObj (adb.defined_tags.getD []))])]

/-- `list_autonomous_databases_sdk`: one `list_autonomous_databases` call;
each filter is only forwarded when truthy. -/
def list_autonomous_databases_sdk (env : Env) (v : Vendor) (compartment_id : String)
    (lifecycle_state : Option String := none) (db_workload : Option String := none) :
    Except String (List JObj) × List VCall :=
  match env.init with
  | none => (.error "OCI Database SDK not available", [])
  | some _ =>
    match v.listAdbs compartment_id (pyOpt lifecycle_state) (pyOpt db_workload) with
    | .error e => (.error e, [.listAdbs compartment_id (pyOpt lifecycle_state) (pyOpt db_workload)])
    | .ok data => (.ok (data.map adb_record),
                   [.listAdbs compartment_id (pyOpt lifecycle_state) (pyOpt db_workload)])

/-- The detailed autonomous-database dictionary built by
`get_autonomous_database_details_sdk`. -/
def adb_details_record (adb : Adb) : JObj :=
  [("id", .str adb.id),
   ("display_name", .str adb.display_name),
   ("db_name", .str adb.db_name),
   ("lifecycle_state", .str adb.lifecycle_state),
   ("lifecycle_details", optStr adb.lifecycle_details),
   ("db_workload", .str adb.db_workload),
   ("db_version", .str adb.db_version),
   ("character_set", .str adb.character_set),
   ("ncharacter_set", .str adb.ncharacter_set),
   ("compute_model", .str adb.compute_model),
   ("compute_count", optNum adb.compute_count),
   ("cpu_core_count", optNum adb.cpu_core_count),
   ("data_storage_size_in_tbs", optNum adb.data_storage_size_in_tbs),
   ("data_storage_size_in_gbs", optNum adb.data_storage_size_in_gbs),
   ("provisionable_cpus", .arr ((adb.provisionable_cpus.getD []).map .num)),
   ("is_auto_scaling_enabled", .bool adb.is_auto_scaling_enabled),
   ("is_auto_scaling_for_storage_enabled", .bool adb.is_auto_scaling_for_storage_enabled),
   ("is_free_tier", .bool adb.is_free_tier),
   ("license_model", .str adb.license_model),
   ("whitelisted_ips", .arr ((adb.whitelisted_ips.getD []).map .str)),
   ("are_primary_whitelisted_ips_used", optBool adb.are_primary_whitelisted_ips_used),
   ("connection_strings", .obj (adb.connection_strings.getD [])),
   ("connection_urls", match adb.connection_urls with
     | some u => .obj (conn_urls_fields u)
     | none => .obj []),
   ("service_console_url", optStr adb.service_console_url),
   ("time_created", optStr adb.time_created),
   ("time_maintenance_begin", optStr adb.time_maintenance_begin),
   ("time_maintenance_end", optStr adb.time_maintenance_end),
   ("time_deletion_of_free_autonomous_database",
     optStr adb.time_deletion_of_free_autonomous_database),
   ("vault_id", optStr adb.vault_id),
   ("kms_key_id", optStr adb.kms_key_id),
   ("encryption_key", .obj (adb.encryption_key.getD [])),
   ("backup_retention_period_in_days", optNum adb.backup_retention_period_in_days),
   ("backup_config", .obj (adb.backup_config.getD [])),
   ("disaster_recovery_region_type", optStr adb.disaster_recovery_region_type),
   ("standby_lag_time_in_seconds", optNum adb.standby_lag_time_in_seconds),
   ("role", optStr adb.role),
   ("dataguard_region_type", optStr adb.dataguard_region_type),
   ("peer_db_ids", .arr ((adb.peer_db_ids.getD []).map .str)),
   ("is_refreshable_clone", optBool adb.is_refreshable_clone),
   ("refreshable_status", optStr adb.refreshable_status),
   ("refreshable_mode", optStr adb.refreshable_mode),
   ("time_of_last_refresh", optStr adb.time_of_last_refresh),
   ("time_of_last_refresh_point", optStr adb.time_of_last_refresh_point),
   ("time_of_next_refresh", optStr adb.time_of_next_refresh),
   ("supported_regions_to_clone_to", .arr ((adb.supported_regions_to_clone_to.getD []).map .str)),
   ("customer_contacts", .arr ((adb.customer_contacts.getD []).map .obj)),
   ("compartment_id", .str adb.compartment_id),
   ("tags", .obj [("freeform", strObj (adb.freeform_tags.getD [])),
                  ("defined", strObj (adb.defined_tags.getD [])),
                  ("system", strObj (adb.system_tags.getD []))])]

/-- `get_autonomous_database_details_sdk`: one `get_autonomous_database`
call, normalized. -/
def get_autonomous_database_details_sdk (env : Env) (v : Vendor)
    (autonomous_database_id : String) : Except String JObj × List VCall :=
  match env.init with
  | none => (.error "OCI Database SDK not available", [])
  | some _ =>
    match v.getAdb autonomous_database_id with
    | .error e => (.error e, [.getAdb autonomous_database_id])
    | .ok adb => (.ok (adb_details_record adb), [.getAdb autonomous_database_id])

/-- The fixed allow-list of autonomous-database lifecycle actions. -/
def validAdbActions : List String := ["START", "STOP", "RESTART"]

/-- The action result dictionary of `autonomous_database_action_sdk`. -/
structure AdbActionResult where
  autonomous_database_id : String
  database_name : String
  db_name : String
  action : String
  previous_state : String
  work_request_id : Option String
  request_id : Option String
  initiated_at : String
deriving DecidableEq

/-- The start/stop/restart dispatch of `autonomous_database_action_sdk`; as
with database systems, the final branch is unreachable after validation. -/
def adb_action_dispatch (v : Vendor) (adb_id A : String) :
    Except String AcceptResp × List VCall :=
  if A == "START" then (v.startAdb adb_id, [.startAdb adb_id])
  else if A == "STOP" then (v.stopAdb adb_id, [.stopAdb adb_id])
  else if A == "RESTART" then (v.restartAdb adb_id, [.restartAdb adb_id])
  else (.error "name \x27response\x27 is not defined", [])

/-- `autonomous_database_action_sdk`: availability check, allow-list
validation, then a preliminary `get_autonomous_database` followed by the
action request; returns as soon as the request is accepted. -/
def autonomous_database_action_sdk (env : Env) (v : Vendor)
    (autonomous_database_id action : String) :
    Except String AdbActionResult × List VCall :=
  match env.init with
  | none => (.error "OCI Database SDK not available", [])
  | some _ =>
    if validAdbActions.contains (pyUpper action) = false then
      (.error ("Invalid autonomous database action \x27" ++ action ++
               "\x27. Valid actions: " ++ pyJoin ", " validAdbActions), [])
    else
      match v.getAdb autonomous_database_id with
      | .error e => (.error e, [.getAdb autonomous_database_id])
      | .ok adb =>
        match adb_action_dispatch v autonomous_database_id (pyUpper action) with
        | (.error e, t) => (.error e, .getAdb autonomous_database_id :: t)
        | (.ok r, t) =>
          (.ok { autonomous_database_id, database_name := adb.display_name,
                 db_name := adb.db_name, action := (pyUpper action),
                 previous_state := adb.lifecycle_state, work_request_id := r.workRequestId,
                 request_id := r.requestId, initiated_at := env.now ++ "Z" },
           .getAdb autonomous_database_id :: t)

/-- The scaling parameters received by `scale_autonomous_database_sdk` as
`**scale_params`: the tool only includes keys whose argument is not `None`,
so "key present and not None" is `isSome`.  The Python `compute_count` is a
float; the server only copies and prints it, so it is modelled as `Int`. -/
structure ScaleParams where
  compute_count : Option Int := none
  cpu_core_count : Option Int := none
  data_storage_size_in_tbs : Option Int := none
  is_auto_scaling_enabled : Option Bool := none
  is_auto_scaling_for_storage_enabled : Option Bool := none
deriving DecidableEq

/-- The `UpdateAutonomousDatabaseDetails` payload assembled field by field by
`scale_autonomous_database_sdk`. -/
def update_details_of (p : ScaleParams) : UpdateAutonomousDatabaseDetails :=
  { compute_count := p.compute_count,
    cpu_core_count := p.cpu_core_count,
    data_storage_size_in_tbs := p.data_storage_size_in_tbs,
    is_auto_scaling_enabled := p.is_auto_scaling_enabled,
    is_auto_scaling_for_storage_enabled := p.is_auto_scaling_for_storage_enabled }

/-- The human-readable `changes` list accumulated alongside the update
payload, in source order. -/
def scale_changes (p : ScaleParams) : List String :=
  (p.compute_count.map (fun n => "ECPU: " ++ toString n)).toList ++
  (p.cpu_core_count.map (fun n => "OCPU: " ++ toString n)).toList ++
  (p.data_storage_size_in_tbs.map (fun n => "Storage: " ++ toString n ++ "TB")).toList ++
  (p.is_auto_scaling_enabled.map
    (fun b => "Auto-scaling: " ++ if b then "enabled" else "disabled")).toList ++
  (p.is_auto_scaling_for_storage_enabled.map
    (fun b => "Storage auto-scaling: " ++ if b then "enabled" else "disabled")).toList

/-- The action result dictionary of `scale_autonomous_database_sdk`. -/
structure ScaleActionResult where
  autonomous_database_id : String
  database_name : String
  db_name : String
  action : String
  changes : List String
  work_request_id : Option String
  request_id : Option String
  initiated_at : String
deriving DecidableEq

/-- `scale_autonomous_database_sdk`: availability check, preliminary
`get_autonomous_database`, build the update payload and the `changes` list,
raise `"No scaling parameters provided"` when no change was requested,
otherwise send the update and return as soon as it is accepted. -/
def scale_autonomous_database_sdk (env : Env) (v : Vendor)
    (autonomous_database_id : String) (p : ScaleParams) :
    Except String ScaleActionResult × List VCall :=
  match env.init with
  | none => (.error "OCI Database SDK not available", [])
  | some _ =>
    match v.getAdb autonomous_database_id with
    | .error e => (.error e, [.getAdb autonomous_database_id])
    | .ok adb =>
      let update_details := update_details_of p
      let changes := scale_changes p
      if changes.isEmpty then
        (.error "No scaling parameters provided", [.getAdb autonomous_database_id])
      else
        match v.updateAdb autonomous_database_id update_details with
        | .error e => (.error e, [.getAdb autonomous_database_id,
                                  .updateAdb autonomous_database_id update_details])
        | .ok r =>
          (.ok { autonomous_database_id, database_name := adb.display_name,
                 db_name := adb.db_name, action := "SCALE", changes,
                 work_request_id := r.workRequestId, request_id := r.requestId,
                 initiated_at := env.now ++ "Z" },
           [.getAdb autonomous_database_id, .updateAdb autonomous_database_id update_details])

/-- The state dictionary of `get_autonomous_database_state_sdk`. -/
structure AdbStateInfo where
  autonomous_database_id : String
  database_name : String
  db_name : String
  lifecycle_state : String
  lifecycle_details : Option String
  db_workload : String
  compute_model : String
  compute_count : Option Int
  cpu_core_count : Option Int
  data_storage_size_in_tbs : Option Int
  is_auto_scaling_enabled : Bool
  is_free_tier : Bool
  compartment_id : String
  time_created : Option String
  retrieved_at : String
deriving DecidableEq

/-- `get_autonomous_database_state_sdk`: one `get_autonomous_database` call,
state fields copied unmodified. -/
def get_autonomous_database_state_sdk (env : Env) (v : Vendor)
    (autonomous_database_id : String) : Except String AdbStateInfo × List VCall :=
  match env.init with
  | none => (.error "OCI Database SDK not available", [])
  | some _ =>
    match v.getAdb autonomous_database_id with
    | .error e => (.error e, [.getAdb autonomous_database_id])
    | .ok adb =>
      (.ok { autonomous_database_id, database_name := adb.display_name,
             db_name := adb.db_name, lifecycle_state := adb.lifecycle_state,
             lifecycle_details := adb.lifecycle_details, db_workload := adb.db_workload,
             compute_model := adb.compute_model, compute_count := adb.compute_count,
             cpu_core_count := adb.cpu_core_count,
             data_storage_size_in_tbs := adb.data_storage_size_in_tbs,
             is_auto_scaling_enabled := adb.is_auto_scaling_enabled,
             is_free_tier := adb.is_free_tier, compartment_id := adb.compartment_id,
             time_created := adb.time_created, retrieved_at := env.now ++ "Z" },
       [.getAdb autonomous_database_id])

/-! ## Tool layer

Each `@mcp.tool()` coroutine is embedded as a total function returning its
JSON response (as a structure whose fields are the response dictionary's
keys) and the trace of vendor calls.  The `try/except` at each tool boundary
becomes the explicit failure branches; the failure dictionaries omit the
`filters` key and carry the `error` key, modelled by `Option` fields. -/

/-- Response of the three listing tools (`instances` / `database_systems` /
`autonomous_databases` payload key, here uniformly `items`). -/
structure ListResp where
  success : Bool
  summary : String
  count : Nat
  method : String
  filters : Option JObj
  items : List JObj
  error : Option String
  retrieved_at : String

/-- Response of `list_instances_with_network`. -/
structure ListNetResp where
  success : Bool
  summary : String
  count : Nat
  method : String
  network_info_included : Bool
  filters : Option JObj
  items : List JObj
  error : Option String
  retrieved_at : String

/-- Response of `get_instance_details` (`instance_` is the `instance` key,
renamed because `instance` is reserved in Lean). -/
structure InstDetailResp where
  success : Bool
  summary : String
  method : String
  instance_ : JObj
  network_interfaces : List JObj
  network_info_included : Bool
  error : Option String
  retrieved_at : String

/-- Response of `get_autonomous_database_details`. -/
structure AdbDetailResp where
  success : Bool
  summary : String
  method : String
  autonomous_database : JObj
  error : Option String
  retrieved_at : String

/-- Response of the lifecycle-action and scaling tools; `action_details` is
the result dictionary, `none` on the failure path (`{}` in the source). -/
structure ActionResp (α : Type) where
  success : Bool
  summary : String
  method : String
  action_details : Option α
  error : Option String
  initiated_at : String

/-- Response of the state-check tools; `state_info` is `none` on the failure
path (`{}` in the source). -/
structure StateResp (α : Type) where
  success : Bool
  summary : String
  method : String
  state_info : Option α
  error : Option String
  retrieved_at : String

/-- One entry of the connectivity test's `tests` dictionary; `extra` holds
the informational fields (region, counts) some entries add. -/
structure TestEntry where
  status : String
  message : String
  extra : JObj

/-- Response of `test_core_services_connection`. -/
structure ConnTestResp where
  success : Bool
  summary : String
  timestamp : String
  tests : List (String × TestEntry)
  error : Option String

/-- The failure dictionary shared by the listing tools. -/
def listFailResp (msgPre e : String) (env : Env) : ListResp :=
  { success := false, summary := msgPre ++ e, count := 0, method := "Error",
    filters := none, items := [], error := some e, retrieved_at := env.now ++ "Z" }

/-- The failure dictionary shared by the action tools. -/
def actFail {α : Type} (msgPre e : String) (env : Env) : ActionResp α :=
  { success := false, summary := msgPre ++ e, method := "Error", action_details := none,
    error := some e, initiated_at := env.now ++ "Z" }

/-- The failure dictionary shared by the state-check tools. -/
def stateFail {α : Type} (msgPre e : String) (env : Env) : StateResp α :=
  { success := false, summary := msgPre ++ e, method := "Error", state_info := none,
    error := some e, retrieved_at := env.now ++ "Z" }

/-- `" - Work Request: ..."` summary suffix, appended when the action result
carries a truthy work request id. -/
def workReqText (w : Option String) : String :=
  if truthy w then " - Work Request: " ++ w.getD "" else ""

/-- Tool `list_compute_instances`: resolve the compartment, prefer the SDK
listing and fall back to the CLI when it raises; any remaining exception is
converted to the failure response at the boundary. -/
def list_compute_instances (env : Env) (v : Vendor) (compartment_id : Option String := none)
    (lifecycle_state : String := "RUNNING") : ListResp × List VCall :=
  let target := pyOrStr compartment_id (get_compartment_id env)
  if truthy target then
    let c := target.getD ""
    match list_instances_sdk env v c lifecycle_state with
    | (.ok instances, t) =>
      ({ success := true,
         summary := "Found " ++ toString instances.length ++ " " ++ (pyLower lifecycle_state) ++
                    " compute instances in " ++ regionText env,
         count := instances.length, method := "OCI Python SDK",
         filters := some [("compartment_id", .str c), ("lifecycle_state", .str lifecycle_state)],
         items := instances, error := none, retrieved_at := env.now ++ "Z" }, t)
    | (.error _, t) =>
      match list_instances_cli_fallback v c lifecycle_state with
      | (.ok instances, t2) =>
        ({ success := true,
           summary := "Found " ++ toString instances.length ++ " " ++ (pyLower lifecycle_state) ++
                      " compute instances in " ++ regionText env,
           count := instances.length, method := "OCI CLI",
           filters := some [("compartment_id", .str c), ("lifecycle_state", .str lifecycle_state)],
           items := instances, error := none, retrieved_at := env.now ++ "Z" }, t ++ t2)
      | (.error e, t2) =>
        (listFailResp "Failed to list compute instances: " e env, t ++ t2)
  else
    (listFailResp "Failed to list compute instances: " "Compartment ID is required" env, [])

/-- Tool `get_instance_details`: SDK-only details, with best-effort network
enrichment whose failure is swallowed. -/
def get_instance_details (env : Env) (v : Vendor) (instance_id : String)
    (compartment_id : Option String := none) (include_network : Bool := true) :
    InstDetailResp × List VCall :=
  let target := pyOrStr compartment_id (get_compartment_id env)
  match env.init with
  | none =>
    ({ success := false,
       summary := "Failed to get instance details: Instance details require OCI SDK",
       method := "Error", instance_ := [], network_interfaces := [],
       network_info_included := false,
       error := some "Instance details require OCI SDK", retrieved_at := env.now ++ "Z" }, [])
  | some _ =>
    match get_instance_details_sdk env v instance_id with
    | (.error e, t) =>
      ({ success := false, summary := "Failed to get instance details: " ++ e,
         method := "Error", instance_ := [], network_interfaces := [],
         network_info_included := false, error := some e, retrieved_at := env.now ++ "Z" }, t)
    | (.ok d, t) =>
      let net :=
        if include_network && truthy target then
          get_instance_network_info_sdk env v instance_id (target.getD "")
        else (.ok [], [])
      let network_info := match net.1 with | .ok l => l | .error _ => []
      let base := "Instance \x27" ++ jStr (getJ d "name") ++ "\x27 (" ++ jStr (getJ d "shape") ++
                  ") is " ++ pyLower (jStr (getJ d "state"))
      let summary :=
        match network_info.find? (fun nic => jBool (getJ nic "is_primary")) with
        | none => base
        | some nic =>
          let s1 := base ++ " with private IP " ++ pyShow (getJ nic "private_ip")
          if pyTruthyJ (getJ nic "public_ip") then
            s1 ++ " and public IP " ++ pyShow (getJ nic "public_ip")
          else s1
      ({ success := true, summary, method := "OCI Python SDK", instance_ := d,
         network_interfaces := network_info,
         network_info_included := include_network && !network_info.isEmpty,
         error := none, retrieved_at := env.now ++ "Z" }, t ++ net.2)

/-- The per-instance network enrichment of `list_instances_with_network`:
appends `network_interfaces` and the primary-interface convenience fields,
with a failure degrading to empty values. -/
def enhance_with_network (env : Env) (v : Vendor) (target : String) (inst : JObj) :
    JObj × List VCall :=
  match get_instance_network_info_sdk env v (jStr (getJ inst "id")) target with
  | (.ok network_info, t) =>
    let primary := network_info.find? (fun nic => jBool (getJ nic "is_primary"))
    (inst ++ [("network_interfaces", .arr (network_info.map .obj)),
              ("primary_private_ip",
                match primary with | some nic => getJ nic "private_ip" | none => .null),
              ("primary_public_ip",
                match primary with | some nic => getJ nic "public_ip" | none => .null),
              ("hostname",
                match primary with | some nic => getJ nic "hostname" | none => .null)], t)
  | (.error _, t) =>
    (inst ++ [("network_interfaces", .arr []), ("primary_private_ip", .null),
              ("primary_public_ip", .null), ("hostname", .null)], t)

/-- The failure dictionary of `list_instances_with_network`. -/
def netListFail (env : Env) (e : String) : ListNetResp :=
  { success := false, summary := "Failed to list instances with network info: " ++ e,
    count := 0, method := "Error", network_info_included := false, filters := none,
    items := [], error := some e, retrieved_at := env.now ++ "Z" }

/-- Tool `list_instances_with_network`: the CLI fallback is selected only
when the SDK client is absent (`if core_manager.compute_client:`); an SDK
exception therefore propagates to the boundary without a fallback attempt. -/
def list_instances_with_network (env : Env) (v : Vendor)
    (compartment_id : Option String := none) (lifecycle_state : String := "RUNNING") :
    ListNetResp × List VCall :=
  let target := pyOrStr compartment_id (get_compartment_id env)
  if truthy target then
    let c := target.getD ""
    match (match env.init with
           | some _ => (list_instances_sdk env v c lifecycle_state, "OCI Python SDK")
           | none => (list_instances_cli_fallback v c lifecycle_state,
                      "OCI CLI (limited network info)")) with
    | ((.error e, t), _) => (netListFail env e, t)
    | ((.ok instances, t), method) =>
      let enhanced :=
        match env.init with
        | some _ => instances.map (fun inst => enhance_with_network env v c inst)
        | none => instances.map (fun inst =>
            (inst ++ [("network_interfaces", JVal.arr []), ("primary_private_ip", JVal.null),
                      ("primary_public_ip", JVal.null), ("hostname", JVal.null)],
             ([] : List VCall)))
      let insts2 := enhanced.map Prod.fst
      let t2 := (enhanced.map Prod.snd).flatten
      let network_enabled := env.init.isSome
      let summary := "Found " ++ toString insts2.length ++ " " ++ (pyLower lifecycle_state) ++
                     " compute instances" ++
                     (if network_enabled then " with network information"
                      else " (network details require SDK)")
      ({ success := true, summary, count := insts2.length, method,
         network_info_included := network_enabled,
         filters := some [("compartment_id", .str c), ("lifecycle_state", .str lifecycle_state)],
         items := insts2, error := none, retrieved_at := env.now ++ "Z" }, t ++ t2)
  else (netListFail env "Compartment ID is required", [])

/-- Tool `start_compute_instance`. -/
def start_compute_instance (env : Env) (v : Vendor) (instance_id : String)
    (compartment_id : Option String := none) :
    ActionResp InstanceActionResult × List VCall :=
  match env.init with
  | none => (actFail "Failed to start instance: "
               "Instance lifecycle actions require OCI SDK" env, [])
  | some _ =>
    match instance_action_sdk env v instance_id "START" compartment_id with
    | (.error e, t) => (actFail "Failed to start instance: " e env, t)
    | (.ok r, t) =>
      ({ success := true,
         summary := "Start action initiated for instance \x27" ++ r.instance_name ++
                    "\x27 (was " ++ r.previous_state ++ ")" ++ workReqText r.work_request_id,
         method := "OCI Python SDK", action_details := some r, error := none,
         initiated_at := env.now ++ "Z" }, t)

/-- Tool `stop_compute_instance` (`SOFTSTOP` when `soft_stop`, else `STOP`). -/
def stop_compute_instance (env : Env) (v : Vendor) (instance_id : String)
    (compartment_id : Option String := none) (soft_stop : Bool := true) :
    ActionResp InstanceActionResult × List VCall :=
  let action := if soft_stop then "SOFTSTOP" else "STOP"
  match env.init with
  | none => (actFail "Failed to stop instance: "
               "Instance lifecycle actions require OCI SDK" env, [])
  | some _ =>
    match instance_action_sdk env v instance_id action compartment_id with
    | (.error e, t) => (actFail "Failed to stop instance: " e env, t)
    | (.ok r, t) =>
      ({ success := true,
         summary := (if soft_stop then "Graceful" else "Forced") ++
                    " stop action initiated for instance \x27" ++ r.instance_name ++
                    "\x27 (was " ++ r.previous_state ++ ")" ++ workReqText r.work_request_id,
         method := "OCI Python SDK", action_details := some r, error := none,
         initiated_at := env.now ++ "Z" }, t)

/-- Tool `restart_compute_instance` (`SOFTRESET` when `soft_restart`, else
`RESET`). -/
def restart_compute_instance (env : Env) (v : Vendor) (instance_id : String)
    (compartment_id : Option String := none) (soft_restart : Bool := true) :
    ActionResp InstanceActionResult × List VCall :=
  let action := if soft_restart then "SOFTRESET" else "RESET"
  match env.init with
  | none => (actFail "Failed to restart instance: "
               "Instance lifecycle actions require OCI SDK" env, [])
  | some _ =>
    match instance_action_sdk env v instance_id action compartment_id with
    | (.error e, t) => (actFail "Failed to restart instance: " e env, t)
    | (.ok r, t) =>
      ({ success := true,
         summary := (if soft_restart then "Graceful" else "Forced") ++
                    " restart action initiated for instance \x27" ++ r.instance_name ++
                    "\x27 (was " ++ r.previous_state ++ ")" ++ workReqText r.work_request_id,
         method := "OCI Python SDK", action_details := some r, error := none,
         initiated_at := env.now ++ "Z" }, t)

/-- Tool `get_compute_instance_state`. -/
def get_compute_instance_state (env : Env) (v : Vendor) (instance_id : String) :
    StateResp InstanceStateInfo × List VCall :=
  match env.init with
  | none => (stateFail "Failed to get instance state: "
               "Instance state check requires OCI SDK" env, [])
  | some _ =>
    match get_instance_state_sdk env v instance_id with
    | (.error e, t) => (stateFail "Failed to get instance state: " e env, t)
    | (.ok si, t) =>
      ({ success := true,
         summary := "Instance \x27" ++ si.instance_name ++ "\x27 is currently " ++
                    si.lifecycle_state,
         method := "OCI Python SDK", state_info := some si, error := none,
         retrieved_at := env.now ++ "Z" }, t)

/-- Tool `list_database_systems` (SDK only, no CLI fallback). -/
def list_database_systems (env : Env) (v : Vendor) (compartment_id : Option String := none)
    (lifecycle_state : Option String := none) : ListResp × List VCall :=
  let target := pyOrStr compartment_id (get_compartment_id env)
  if truthy target then
    let c := target.getD ""
    match env.init with
    | none => (listFailResp "Failed to list database systems: "
                 "Database listing requires OCI SDK" env, [])
    | some _ =>
      match list_databases_sdk env v c lifecycle_state with
      | (.error e, t) => (listFailResp "Failed to list database systems: " e env, t)
      | (.ok dbs, t) =>
        let state_filter := if truthy lifecycle_state then
            " " ++ pyLower (lifecycle_state.getD "") else ""
        ({ success := true,
           summary := "Found " ++ toString dbs.length ++ state_filter ++
                      " database systems in " ++ regionText env,
           count := dbs.length, method := "OCI Python SDK",
           filters := some [("compartment_id", .str c),
                            ("lifecycle_state", optStr lifecycle_state)],
           items := dbs, error := none, retrieved_at := env.now ++ "Z" }, t)
  else
    (listFailResp "Failed to list database systems: " "Compartment ID is required" env, [])

/-- Tool `start_database_system`. -/
def start_database_system (env : Env) (v : Vendor) (db_system_id : String) :
    ActionResp DbActionResult × List VCall :=
  match env.init with
  | none => (actFail "Failed to start database system: "
               "Database lifecycle actions require OCI SDK" env, [])
  | some _ =>
    match database_action_sdk env v db_system_id "START" with
    | (.error e, t) => (actFail "Failed to start database system: " e env, t)
    | (.ok r, t) =>
      ({ success := true,
         summary := "Start action initiated for database system \x27" ++ r.db_system_name ++
                    "\x27 (was " ++ r.previous_state ++ ")" ++ workReqText r.work_request_id,
         method := "OCI Python SDK", action_details := some r, error := none,
         initiated_at := env.now ++ "Z" }, t)

/-- Tool `stop_database_system`. -/
def stop_database_system (env : Env) (v : Vendor) (db_system_id : String) :
    ActionResp DbActionResult × List VCall :=
  match env.init with
  | none => (actFail "Failed to stop database system: "
               "Database lifecycle actions require OCI SDK" env, [])
  | some _ =>
    match database_action_sdk env v db_system_id "STOP" with
    | (.error e, t) => (actFail "Failed to stop database system: " e env, t)
    | (.ok r, t) =>
      ({ success := true,
         summary := "Stop action initiated for database system \x27" ++ r.db_system_name ++
                    "\x27 (was " ++ r.previous_state ++ ")" ++ workReqText r.work_request_id,
         method := "OCI Python SDK", action_details := some r, error := none,
         initiated_at := env.now ++ "Z" }, t)

/-- Tool `get_database_system_state`. -/
def get_database_system_state (env : Env) (v : Vendor) (db_system_id : String) :
    StateResp DbStateInfo × List VCall :=
  match env.init with
  | none => (stateFail "Failed to get database system state: "
               "Database state check requires OCI SDK" env, [])
  | some _ =>
    match get_database_state_sdk env v db_system_id with
    | (.error e, t) => (stateFail "Failed to get database system state: " e env, t)
    | (.ok si, t) =>
      ({ success := true,
         summary := "Database system \x27" ++ si.db_system_name ++ "\x27 is currently " ++
                    si.lifecycle_state,
         method := "OCI Python SDK", state_info := some si, error := none,
         retrieved_at := env.now ++ "Z" }, t)

/-- Tool `list_autonomous_databases` (SDK only, no CLI fallback). -/
def list_autonomous_databases (env : Env) (v : Vendor)
    (compartment_id : Option String := none) (lifecycle_state : Option String := none)
    (db_workload : Option String := none) : ListResp × List VCall :=
  let target := pyOrStr compartment_id (get_compartment_id env)
  if truthy target then
    let c := target.getD ""
    match env.init with
    | none => (listFailResp "Failed to list autonomous databases: "
                 "Autonomous database listing requires OCI SDK" env, [])
    | some _ =>
      match list_autonomous_databases_sdk env v c lifecycle_state db_workload with
      | (.error e, t) => (listFailResp "Failed to list autonomous databases: " e env, t)
      | (.ok adbs, t) =>
        let filters_desc :=
          (if truthy lifecycle_state then ["state: " ++ lifecycle_state.getD ""] else []) ++
          (if truthy db_workload then ["workload: " ++ db_workload.getD ""] else [])
        let filter_text := if filters_desc.isEmpty then ""
          else " (" ++ pyJoin ", " filters_desc ++ ")"
        ({ success := true,
           summary := "Found " ++ toString adbs.length ++ " autonomous databases" ++
                      filter_text ++ " in " ++ regionText env,
           count := adbs.length, method := "OCI Python SDK",
           filters := some [("compartment_id", .str c),
                            ("lifecycle_state", optStr lifecycle_state),
                            ("db_workload", optStr db_workload)],
           items := adbs, error := none, retrieved_at := env.now ++ "Z" }, t)
  else
    (listFailResp "Failed to list autonomous databases: " "Compartment ID is required" env, [])

/-- The workload display names used by the autonomous-database tools. -/
def workload_names : List (String × String) :=
  [("OLTP", "Transaction Processing"), ("DW", "Data Warehouse"),
   ("AJD", "JSON Database"), ("APEX", "APEX Application Development")]

/-- The failure dictionary of `get_autonomous_database_details`. -/
def adbDetailFail (e : String) (env : Env) : AdbDetailResp :=
  { success := false, summary := "Failed to get autonomous database details: " ++ e,
    method := "Error", autonomous_database := [], error := some e,
    retrieved_at := env.now ++ "Z" }

/-- Tool `get_autonomous_database_details`. -/
def get_autonomous_database_details (env : Env) (v : Vendor)
    (autonomous_database_id : String) : AdbDetailResp × List VCall :=
  match env.init with
  | none => (adbDetailFail "Autonomous database details require OCI SDK" env, [])
  | some _ =>
    match get_autonomous_database_details_sdk env v autonomous_database_id with
    | (.error e, t) => (adbDetailFail e env, t)
    | (.ok d, t) =>
      let workload_desc := (workload_names.lookup (jStr (getJ d "db_workload"))).getD
        (jStr (getJ d "db_workload"))
      let compute_desc :=
        if jStr (getJ d "compute_model") == "ECPU" then
          pyShow (getJ d "compute_count") ++ " ECPUs"
        else pyShow (getJ d "cpu_core_count") ++ " OCPUs"
      ({ success := true,
         summary := "Autonomous Database \x27" ++ jStr (getJ d "display_name") ++ "\x27 (" ++
                    workload_desc ++ ") is " ++ pyLower (jStr (getJ d "lifecycle_state")) ++
                    " with " ++ compute_desc ++ " and " ++
                    pyShow (getJ d "data_storage_size_in_tbs") ++ "TB storage",
         method := "OCI Python SDK", autonomous_database := d, error := none,
         retrieved_at := env.now ++ "Z" }, t)

/-- Tool `start_autonomous_database`. -/
def start_autonomous_database (env : Env) (v : Vendor) (autonomous_database_id : String) :
    ActionResp AdbActionResult × List VCall :=
  match env.init with
  | none => (actFail "Failed to start autonomous database: "
               "Autonomous database lifecycle actions require OCI SDK" env, [])
  | some _ =>
    match autonomous_database_action_sdk env v autonomous_database_id "START" with
    | (.error e, t) => (actFail "Failed to start autonomous database: " e env, t)
    | (.ok r, t) =>
      ({ success := true,
         summary := "Start action initiated for autonomous database \x27" ++ r.database_name ++
                    "\x27 (was " ++ r.previous_state ++ ")" ++ workReqText r.work_request_id,
         method := "OCI Python SDK", action_details := some r, error := none,
         initiated_at := env.now ++ "Z" }, t)

/-- Tool `stop_autonomous_database`. -/
def stop_autonomous_database (env : Env) (v : Vendor) (autonomous_database_id : String) :
    ActionResp AdbActionResult × List VCall :=
  match env.init with
  | none => (actFail "Failed to stop autonomous database: "
               "Autonomous database lifecycle actions require OCI SDK" env, [])
  | some _ =>
    match autonomous_database_action_sdk env v autonomous_database_id "STOP" with
    | (.error e, t) => (actFail "Failed to stop autonomous database: " e env, t)
    | (.ok r, t) =>
      ({ success := true,
         summary := "Stop action initiated for autonomous database \x27" ++ r.database_name ++
                    "\x27 (was " ++ r.previous_state ++ ")" ++ workReqText r.work_request_id,
         method := "OCI Python SDK", action_details := some r, error := none,
         initiated_at := env.now ++ "Z" }, t)

/-- Tool `restart_autonomous_database`. -/
def restart_autonomous_database (env : Env) (v : Vendor) (autonomous_database_id : String) :
    ActionResp AdbActionResult × List VCall :=
  match env.init with
  | none => (actFail "Failed to restart autonomous database: "
               "Autonomous database lifecycle actions require OCI SDK" env, [])
  | some _ =>
    match autonomous_database_action_sdk env v autonomous_database_id "RESTART" with
    | (.error e, t) => (actFail "Failed to restart autonomous database: " e env, t)
    | (.ok r, t) =>
      ({ success := true,
         summary := "Restart action initiated for autonomous database \x27" ++ r.database_name ++
                    "\x27 (was " ++ r.previous_state ++ ")" ++ workReqText r.work_request_id,
         method := "OCI Python SDK", action_details := some r, error := none,
         initiated_at := env.now ++ "Z" }, t)

/-- Tool `scale_autonomous_database`: collects the non-`None` arguments into
the scaling parameters and delegates. -/
def scale_autonomous_database (env : Env) (v : Vendor) (autonomous_database_id : String)
    (compute_count : Option Int := none) (cpu_core_count : Option Int := none)
    (data_storage_size_in_tbs : Option Int := none)
    (is_auto_scaling_enabled : Option Bool := none)
    (is_auto_scaling_for_storage_enabled : Option Bool := none) :
    ActionResp ScaleActionResult × List VCall :=
  match env.init with
  | none => (actFail "Failed to scale autonomous database: "
               "Autonomous database scaling requires OCI SDK" env, [])
  | some _ =>
    let scale_params : ScaleParams :=
      { compute_count, cpu_core_count, data_storage_size_in_tbs,
        is_auto_scaling_enabled, is_auto_scaling_for_storage_enabled }
    match scale_autonomous_database_sdk env v autonomous_database_id scale_params with
    | (.error e, t) => (actFail "Failed to scale autonomous database: " e env, t)
    | (.ok r, t) =>
      ({ success := true,
         summary := "Scaling action initiated for autonomous database \x27" ++
                    r.database_name ++ "\x27: " ++ pyJoin ", " r.changes ++
                    workReqText r.work_request_id,
         method := "OCI Python SDK", action_details := some r, error := none,
         initiated_at := env.now ++ "Z" }, t)

/-- Tool `get_autonomous_database_state`. -/
def get_autonomous_database_state (env : Env) (v : Vendor)
    (autonomous_database_id : String) : StateResp AdbStateInfo × List VCall :=
  match env.init with
  | none => (stateFail "Failed to get autonomous database state: "
               "Autonomous database state check requires OCI SDK" env, [])
  | some _ =>
    match get_autonomous_database_state_sdk env v autonomous_database_id with
    | (.error e, t) => (stateFail "Failed to get autonomous database state: " e env, t)
    | (.ok si, t) =>
      let workload_desc := (workload_names.lookup si.db_workload).getD si.db_workload
      ({ success := true,
         summary := "Autonomous Database \x27" ++ si.database_name ++ "\x27 (" ++
                    workload_desc ++ ") is currently " ++ si.lifecycle_state,
         method := "OCI Python SDK", state_info := some si, error := none,
         retrieved_at := env.now ++ "Z" }, t)

/-- Tool `test_core_services_connection`: runs five availability probes,
recording each outcome as a per-test entry; step exceptions are converted to
`failed` entries, the overall response never carries a top-level `error`
unless the surrounding (unreachable here) handler fires. -/
def test_core_services_connection (env : Env) (v : Vendor) : ConnTestResp × List VCall :=
  let sdk_config_test : TestEntry :=
    match env.init with
    | some cfg =>
      { status := "success", message := "OCI SDK configuration loaded",
        extra := [("region", .str (cfg.region.getD "unknown")),
                  ("tenancy_preview", .str (pyTake (cfg.tenancy.getD "") 20 ++ "..."))] }
    | none => { status := "failed", message := "OCI SDK configuration not available",
                extra := [] }
  let compute_probe : TestEntry × List VCall :=
    match env.init with
    | some _ =>
      if truthy (get_compartment_id env) then
        match list_instances_sdk env v ((get_compartment_id env).getD "") "RUNNING" with
        | (.ok l, t) =>
          ({ status := "success",
             message := "Compute service accessible - found " ++ toString l.length ++
                        " running instances",
             extra := [("instance_count", .num l.length)] }, t)
        | (.error e, t) =>
          ({ status := "failed",
             message := "Compute service test failed: " ++ pyTake e 100 ++ "...",
             extra := [] }, t)
      else ({ status := "warning",
              message := "Compute client available but no compartment ID configured",
              extra := [] }, [])
    | none => ({ status := "failed", message := "Compute client not available",
                 extra := [] }, [])
  let network_test : TestEntry :=
    match env.init with
    | some _ => { status := "success", message := "Virtual Network client available",
                  extra := [] }
    | none => { status := "failed", message := "Virtual Network client not available",
                extra := [] }
  let database_probe : TestEntry × List VCall :=
    match env.init with
    | some _ =>
      if truthy (get_compartment_id env) then
        match list_databases_sdk env v ((get_compartment_id env).getD "") with
        | (.ok l, t) =>
          ({ status := "success",
             message := "Database service accessible - found " ++ toString l.length ++
                        " database systems",
             extra := [("database_count", .num l.length)] }, t)
        | (.error e, t) =>
          ({ status := "failed",
             message := "Database service test failed: " ++ pyTake e 100 ++ "...",
             extra := [] }, t)
      else ({ status := "warning",
              message := "Database client available but no compartment ID configured",
              extra := [] }, [])
    | none => ({ status := "failed", message := "Database client not available",
                 extra := [] }, [])
  let adb_probe : TestEntry × List VCall :=
    match env.init with
    | some _ =>
      if truthy (get_compartment_id env) then
        match list_autonomous_databases_sdk env v ((get_compartment_id env).getD "") with
        | (.ok l, t) =>
          ({ status := "success",
             message := "Autonomous Database service accessible - found " ++
                        toString l.length ++ " autonomous databases",
             extra := [("autonomous_db_count", .num l.length)] }, t)
        | (.error e, t) =>
          ({ status := "failed",
             message := "Autonomous Database service test failed: " ++ pyTake e 100 ++ "...",
             extra := [] }, t)
      else ({ status := "warning",
              message := "Autonomous Database client available but no compartment ID configured",
              extra := [] }, [])
    | none => ({ status := "failed", message := "Autonomous Database client not available",
                 extra := [] }, [])
  let tests := [("sdk_config", sdk_config_test), ("compute_service", compute_probe.1),
                ("network_service", network_test), ("database_service", database_probe.1),
                ("autonomous_database_service", adb_probe.1)]
  let failed_tests := tests.filter (fun kv => kv.2.status == "failed")
  let trace := compute_probe.2 ++ database_probe.2 ++ adb_probe.2
  if failed_tests.isEmpty then
    ({ success := true, summary := "All OCI Core Services accessible",
       timestamp := env.now ++ "Z", tests, error := none }, trace)
  else
    ({ success := false,
       summary := toString failed_tests.length ++ " out of " ++ toString tests.length ++
                  " tests failed",
       timestamp := env.now ++ "Z", tests, error := none }, trace)

/-! ## Concrete fixtures

Closed environments and vendor behaviors used by the witness and
counterexample theorems. -/

/-- A loaded OCI config. -/
def cfgA : Config := { region := some "eu-frankfurt-1", tenancy := some "tenancy-a" }

/-- Environment with initialized clients and a compartment id configured. -/
def envA : Env :=
  { init := some cfgA, ociCompartmentId := some "c1", now := "2026-10-12T00:00:00" }

/-- A vendor compute instance. -/
def instA : OciInstance :=
  { id := "i1", display_name := "web-1", shape := "VM.Standard3.Flex",
    lifecycle_state := "RUNNING", availability_domain := "AD-1", compartment_id := "c1",
    time_created := some "2024-01-01T00:00:00", image_id := "img1", fault_domain := "FD-1",
    metadata := none, freeform_tags := none, defined_tags := none,
    extended_metadata := none, launch_options := none, instance_options := none,
    availability_config := none, agent_config := none }

/-- The same instance as the CLI reports it (hyphenated keys, parsed). -/
def cliInstA : CliInstance :=
  { id := some "i1", display_name := some "web-1", shape := some "VM.Standard3.Flex",
    lifecycle_state := some "RUNNING", availability_domain := some "AD-1",
    compartment_id := some "c1", time_created := some "2024-01-01T00:00:00",
    image_id := some "img1", fault_domain := some "FD-1", metadata := none,
    freeform_tags := none, defined_tags := none }

/-- A vendor database system. -/
def dbA : DbSystem :=
  { id := "d1", display_name := "proddb", shape := "VM.Standard2.1",
    lifecycle_state := "AVAILABLE", availability_domain := "AD-1", compartment_id := "c1",
    time_created := some "2024-01-01T00:00:00", database_edition := "ENTERPRISE_EDITION",
    version := "19.0.0.0", node_count := 1, cpu_core_count := 2,
    data_storage_size_in_gbs := 256, hostname := "dbhost", domain := "example.internal",
    freeform_tags := none, defined_tags := none }

/-- A vendor autonomous database. -/
def adbA : Adb :=
  { id := "a1", display_name := "analytics", db_name := "ADB1",
    lifecycle_state := "AVAILABLE", lifecycle_details := none, db_workload := "OLTP",
    db_version := "19c", character_set := "AL32UTF8", ncharacter_set := "AL16UTF16",
    compute_model := "ECPU", compute_count := some 2, cpu_core_count := none,
    data_storage_size_in_tbs := some 1, data_storage_size_in_gbs := some 1024,
    provisionable_cpus := none, is_auto_scaling_enabled := false,
    is_auto_scaling_for_storage_enabled := false, is_free_tier := false,
    license_model := "LICENSE_INCLUDED", whitelisted_ips := none,
    are_primary_whitelisted_ips_used := none, connection_strings := none,
    connection_urls := none, service_console_url := none,
    time_created := some "2024-01-01T00:00:00", time_maintenance_begin := none,
    time_maintenance_end := none, time_deletion_of_free_autonomous_database := none,
    vault_id := none, kms_key_id := none, encryption_key := none,
    backup_retention_period_in_days := none, backup_config := none,
    disaster_recovery_region_type := none, standby_lag_time_in_seconds := none,
    role := none, dataguard_region_type := none, peer_db_ids := none,
    is_refreshable_clone := none, refreshable_status := none, refreshable_mode := none,
    time_of_last_refresh := none, time_of_last_refresh_point := none,
    time_of_next_refresh := none, supported_regions_to_clone_to := none,
    customer_contacts := none, compartment_id := "c1", freeform_tags := none,
    defined_tags := none, system_tags := none }

/-- An accepted action response with a work request id. -/
def acceptA : AcceptResp := { workRequestId := some "wr1", requestId := some "rq1" }

/-- A vendor where every SDK call succeeds and the CLI is unavailable. -/
def vOk : Vendor :=
  { listInstances := fun _ _ => .ok [instA],
    getInstance := fun _ => .ok instA,
    listVnicAttachments := fun _ _ => .ok [],
    getVnic := fun _ => .error "vnic lookup failed",
    instanceAction := fun _ _ => .ok acceptA,
    listDbSystems := fun _ _ => .ok [dbA],
    getDbSystem := fun _ => .ok dbA,
    startDbSystem := fun _ => .ok acceptA,
    stopDbSystem := fun _ => .ok acceptA,
    listAdbs := fun _ _ _ => .ok [adbA],
    getAdb := fun _ => .ok adbA,
    startAdb := fun _ => .ok acceptA,
    stopAdb := fun _ => .ok acceptA,
    restartAdb := fun _ => .ok acceptA,
    updateAdb := fun _ _ => .ok acceptA,
    cliRun := fun _ => { returncode := 1, stdout := "", stderr := "oci CLI not installed" },
    jsonParse := fun _ => .error "Expecting value" }

/-- A vendor whose listing calls report no matching resources. -/
def vEmpty : Vendor :=
  { vOk with listInstances := fun _ _ => .ok [],
             listDbSystems := fun _ _ => .ok [],
             listAdbs := fun _ _ _ => .ok [] }

/-- A vendor whose SDK instance listing raises while the CLI works. -/
def vSdkDown : Vendor :=
  { vOk with listInstances := fun _ _ => .error "ServiceError 500",
             cliRun := fun _ => { returncode := 0, stdout := "cli-json", stderr := "" },
             jsonParse := fun _ => .ok { data := [cliInstA] } }

/-- A vendor where both the SDK instance listing and the CLI fail. -/
def vBothDown : Vendor :=
  { vOk with listInstances := fun _ _ => .error "ServiceError 500" }

/-- A vendor whose CLI exits 0 with whitespace-only stdout. -/
def vEmptyOut : Vendor :=
  { vOk with cliRun := fun _ => { returncode := 0, stdout := "  \n ", stderr := "" } }

/-- A vendor whose resource lookups raise a not-found error. -/
def vNotFound : Vendor :=
  { vOk with getInstance := fun _ => .error "404 NotFound: resource does not exist",
             getAdb := fun _ => .error "404 NotFound: resource does not exist" }

/-- The failure contract at a tool boundary: either the call succeeded and
no `error` key is present, or it failed with `success` false, an `error`
equal to the exception text, and a summary that is the tool's failure text
followed by that same exception text. -/
def toolBoundary (succ : Bool) (summ : String) (err : Option String)
    (msgPre : String) : Prop :=
  (succ = true ∧ err = none) ∨
  (succ = false ∧ ∃ e, err = some e ∧ summ = msgPre ++ e)

/-! ## Helper lemmas -/

/-- The CLI fallback issues exactly one subprocess call, on every path. -/
theorem cli_fallback_trace (v : Vendor) (c s : String) :
    (list_instances_cli_fallback v c s).2 = [.cli (cli_list_cmd c s)] := by
  unfold list_instances_cli_fallback
  dsimp only
  split
  · rfl
  · split
    · rfl
    · split <;> rfl

/-- The database-system action dispatch never polls a work request. -/
theorem db_dispatch_trace_no_poll (v : Vendor) (i A : String) :
    (db_action_dispatch v i A).2.filter VCall.isPoll = [] := by
  unfold db_action_dispatch
  split
  · rfl
  · split <;> rfl

/-- The autonomous-database action dispatch never polls a work request. -/
theorem adb_dispatch_trace_no_poll (v : Vendor) (i A : String) :
    (adb_action_dispatch v i A).2.filter VCall.isPoll = [] := by
  unfold adb_action_dispatch
  split
  · rfl
  · split
    · rfl
    · split <;> rfl

/-- A truthy optional string is `some` of its value. -/
theorem truthy_eq_some {o : Option String} (h : truthy o = true) : o = some (o.getD "") := by
  cases o with
  | none => simp [truthy] at h
  | some s => rfl

/-- Inversion of a successful SDK instance listing. -/
theorem list_instances_sdk_ok {env : Env} {v : Vendor} {c ls : String}
    {instances : List JObj} {t : List VCall}
    (h : list_instances_sdk env v c ls = (.ok instances, t)) :
    ∃ cfg data, env.init = some cfg ∧ v.listInstances c ls = .ok data ∧
      instances = data.map (sdk_instance_record cfg) ∧ t = [.listInstances c ls] := by
  unfold list_instances_sdk at h
  cases henv : env.init with
  | none => rw [henv] at h; simp at h
  | some cfg =>
    rw [henv] at h
    cases hl : v.listInstances c ls with
    | error e => rw [hl] at h; simp at h
    | ok data =>
      rw [hl] at h
      simp only [Prod.mk.injEq] at h
      obtain ⟨h1, h2⟩ := h
      simp only [Except.ok.injEq] at h1
      exact ⟨cfg, data, rfl, rfl, h1.symm, h2.symm⟩

/-- Inversion of a successful SDK database-system listing. -/
theorem list_databases_sdk_ok {env : Env} {v : Vendor} {c : String} {ls : Option String}
    {dbs : List JObj} {t : List VCall}
    (h : list_databases_sdk env v c ls = (.ok dbs, t)) :
    ∃ cfg data, env.init = some cfg ∧ v.listDbSystems c (pyOpt ls) = .ok data ∧
      dbs = data.map db_system_record ∧ t = [.listDbSystems c (pyOpt ls)] := by
  unfold list_databases_sdk at h
  cases henv : env.init with
  | none => rw [henv] at h; simp at h
  | some cfg =>
    rw [henv] at h
    cases hl : v.listDbSystems c (pyOpt ls) with
    | error e => rw [hl] at h; simp at h
    | ok data =>
      rw [hl] at h
      simp only [Prod.mk.injEq] at h
      obtain ⟨h1, h2⟩ := h
      simp only [Except.ok.injEq] at h1
      exact ⟨cfg, data, rfl, rfl, h1.symm, h2.symm⟩

/-- Inversion of a successful SDK autonomous-database listing. -/
theorem list_autonomous_databases_sdk_ok {env : Env} {v : Vendor} {c : String}
    {ls wl : Option String} {adbs : List JObj} {t : List VCall}
    (h : list_autonomous_databases_sdk env v c ls wl = (.ok adbs, t)) :
    ∃ cfg data, env.init = some cfg ∧
      v.listAdbs c (pyOpt ls) (pyOpt wl) = .ok data ∧
      adbs = data.map adb_record ∧ t = [.listAdbs c (pyOpt ls) (pyOpt wl)] := by
  unfold list_autonomous_databases_sdk at h
  cases henv : env.init with
  | none => rw [henv] at h; simp at h
  | some cfg =>
    rw [henv] at h
    cases hl : v.listAdbs c (pyOpt ls) (pyOpt wl) with
    | error e => rw [hl] at h; simp at h
    | ok data =>
      rw [hl] at h
      simp only [Prod.mk.injEq] at h
      obtain ⟨h1, h2⟩ := h
      simp only [Except.ok.injEq] at h1
      exact ⟨cfg, data, rfl, rfl, h1.symm, h2.symm⟩

/-! ## Claim theorems -/

/-- C6: for every vendor listing result, the instance record produced by the
CLI fallback path has the same field names, in the same order, as the record
produced by the SDK path (id, name, shape, state, availability_domain,
compartment_id, created_time, region, image_id, fault_domain, metadata,
tags), and the `tags` sub-objects also agree on their field names (freeform,
defined).  Even `region` is present on both paths — the CLI path fills it
with the placeholder `"unknown"`. -/
theorem C6_cli_sdk_same_fields (cfg : Config) (i : OciInstance) (j : CliInstance) :
    (sdk_instance_record cfg i).map Prod.fst = (cli_instance_record j).map Prod.fst ∧
    tagFieldNames (sdk_instance_record cfg i) = tagFieldNames (cli_instance_record j) :=
  ⟨rfl, rfl⟩

/-- C3 (amended): in the CLI fallback, a non-zero subprocess exit code raises
`"CLI command failed: <stderr>"`; a zero exit code with empty (or
whitespace-only) stdout is NOT a failure — it returns an empty instance
list. -/
theorem C3_cli_failure_amended (v : Vendor) (c s : String) :
    ((v.cliRun (cli_list_cmd c s)).returncode ≠ 0 →
      (list_instances_cli_fallback v c s).1 =
        .error ("CLI command failed: " ++ (v.cliRun (cli_list_cmd c s)).stderr)) ∧
    ((v.cliRun (cli_list_cmd c s)).returncode = 0 →
      pyStrip (v.cliRun (cli_list_cmd c s)).stdout = "" →
      (list_instances_cli_fallback v c s).1 = .ok []) := by
  constructor
  · intro h
    unfold list_instances_cli_fallback
    rw [if_pos (by simpa using h)]
  · intro h0 hempty
    unfold list_instances_cli_fallback
    rw [if_neg (by simp [h0]), if_pos (by simp [hempty])]

/-- C3 witness: concrete vendors exercising both amended branches. -/
theorem C3_cli_failure_witness :
    ((vOk.cliRun (cli_list_cmd "c1" "RUNNING")).returncode ≠ 0 ∧
      (list_instances_cli_fallback vOk "c1" "RUNNING").1 =
        .error ("CLI command failed: " ++ (vOk.cliRun (cli_list_cmd "c1" "RUNNING")).stderr)) ∧
    ((vEmptyOut.cliRun (cli_list_cmd "c1" "RUNNING")).returncode = 0 ∧
      pyStrip (vEmptyOut.cliRun (cli_list_cmd "c1" "RUNNING")).stdout = "" ∧
      (list_instances_cli_fallback vEmptyOut "c1" "RUNNING").1 = .ok []) :=
  ⟨⟨by decide, (C3_cli_failure_amended vOk "c1" "RUNNING").1 (by decide)⟩,
   ⟨rfl, by decide, (C3_cli_failure_amended vEmptyOut "c1" "RUNNING").2 rfl (by decide)⟩⟩

/-- C3 counterexample: a subprocess exiting 0 with whitespace-only stdout is
not treated as a failure — the fallback returns an empty list instead of
raising, contradicting the claim. -/
theorem C3_empty_stdout_counterexample :
    (vEmptyOut.cliRun (cli_list_cmd "c1" "RUNNING")).returncode = 0 ∧
    pyStrip (vEmptyOut.cliRun (cli_list_cmd "c1" "RUNNING")).stdout = "" ∧
    (list_instances_cli_fallback vEmptyOut "c1" "RUNNING").1 = .ok [] :=
  ⟨rfl, by decide, rfl⟩

/-- C4: for every lifecycle-action operation and every action name whose
uppercasing is not in the operation's fixed allow-list
(instances: START, STOP, SOFTRESET, RESET, SOFTSTOP;
database systems: START, STOP;
autonomous databases: START, STOP, RESTART),
the action is rejected with an error and the vendor-call trace is empty —
in particular no preliminary get-resource call is made. -/
theorem C4_invalid_action_rejected :
    (∀ env v instance_id action compartment_id,
      validInstanceActions.contains (pyUpper action) = false →
      (∃ e, (instance_action_sdk env v instance_id action compartment_id).1 = .error e) ∧
      (instance_action_sdk env v instance_id action compartment_id).2 = []) ∧
    (∀ env v db_system_id action,
      validDatabaseActions.contains (pyUpper action) = false →
      (∃ e, (database_action_sdk env v db_system_id action).1 = .error e) ∧
      (database_action_sdk env v db_system_id action).2 = []) ∧
    (∀ env v adb_id action,
      validAdbActions.contains (pyUpper action) = false →
      (∃ e, (autonomous_database_action_sdk env v adb_id action).1 = .error e) ∧
      (autonomous_database_action_sdk env v adb_id action).2 = []) := by
  refine ⟨?_, ?_, ?_⟩
  · intro env v iid a cid h
    cases henv : env.init with
    | none =>
      refine ⟨⟨"OCI SDK not available", ?_⟩, ?_⟩ <;>
        simp [instance_action_sdk, henv]
    | some cfg =>
      have h2 : ¬ pyUpper a ∈ validInstanceActions := by simpa using h
      refine ⟨⟨"Invalid action \x27" ++ a ++ "\x27. Valid actions: " ++
        pyJoin ", " validInstanceActions, ?_⟩, ?_⟩ <;>
        simp [instance_action_sdk, henv, h2]
  · intro env v did a h
    cases henv : env.init with
    | none =>
      refine ⟨⟨"OCI Database SDK not available", ?_⟩, ?_⟩ <;>
        simp [database_action_sdk, henv]
    | some cfg =>
      have h2 : ¬ pyUpper a ∈ validDatabaseActions := by simpa using h
      refine ⟨⟨"Invalid database action \x27" ++ a ++ "\x27. Valid actions: " ++
        pyJoin ", " validDatabaseActions, ?_⟩, ?_⟩ <;>
        simp [database_action_sdk, henv, h2]
  · intro env v aid a h
    cases henv : env.init with
    | none =>
      refine ⟨⟨"OCI Database SDK not available", ?_⟩, ?_⟩ <;>
        simp [autonomous_database_action_sdk, henv]
    | some cfg =>
      have h2 : ¬ pyUpper a ∈ validAdbActions := by simpa using h
      refine ⟨⟨"Invalid autonomous database action \x27" ++ a ++
        "\x27. Valid actions: " ++ pyJoin ", " validAdbActions, ?_⟩, ?_⟩ <;>
        simp [autonomous_database_action_sdk, henv, h2]

/-- C4 witness: three concrete invalid action names, each rejected with an
empty vendor-call trace. -/
theorem C4_invalid_action_witness :
    (validInstanceActions.contains (pyUpper "DESTROY") = false ∧
      (∃ e, (instance_action_sdk envA vOk "i1" "DESTROY" none).1 = .error e) ∧
      (instance_action_sdk envA vOk "i1" "DESTROY" none).2 = []) ∧
    (validDatabaseActions.contains (pyUpper "RESTART") = false ∧
      (∃ e, (database_action_sdk envA vOk "d1" "RESTART").1 = .error e) ∧
      (database_action_sdk envA vOk "d1" "RESTART").2 = []) ∧
    (validAdbActions.contains (pyUpper "TERMINATE") = false ∧
      (∃ e, (autonomous_database_action_sdk envA vOk "a1" "TERMINATE").1 = .error e) ∧
      (autonomous_database_action_sdk envA vOk "a1" "TERMINATE").2 = []) :=
  ⟨⟨by decide, C4_invalid_action_rejected.1 envA vOk "i1" "DESTROY" none (by decide)⟩,
   ⟨by decide, C4_invalid_action_rejected.2.1 envA vOk "d1" "RESTART" (by decide)⟩,
   ⟨by decide, C4_invalid_action_rejected.2.2 envA vOk "a1" "TERMINATE" (by decide)⟩⟩

/-- C8: for every listing operation (compute instances via the SDK path,
database systems, autonomous databases) for which the vendor reports an
empty data sequence, the response has `success` true, `count` 0, and an
empty resource sequence. -/
theorem C8_empty_listing :
    (∀ env cfg v cid ls c, env.init = some cfg →
      pyOrStr cid (get_compartment_id env) = some c → c ≠ "" →
      v.listInstances c ls = .ok [] →
      (list_compute_instances env v cid ls).1.success = true ∧
      (list_compute_instances env v cid ls).1.count = 0 ∧
      (list_compute_instances env v cid ls).1.items = []) ∧
    (∀ env cfg v cid ls c, env.init = some cfg →
      pyOrStr cid (get_compartment_id env) = some c → c ≠ "" →
      v.listDbSystems c (pyOpt ls) = .ok [] →
      (list_database_systems env v cid ls).1.success = true ∧
      (list_database_systems env v cid ls).1.count = 0 ∧
      (list_database_systems env v cid ls).1.items = []) ∧
    (∀ env cfg v cid ls wl c, env.init = some cfg →
      pyOrStr cid (get_compartment_id env) = some c → c ≠ "" →
      v.listAdbs c (pyOpt ls) (pyOpt wl) = .ok [] →
      (list_autonomous_databases env v cid ls wl).1.success = true ∧
      (list_autonomous_databases env v cid ls wl).1.count = 0 ∧
      (list_autonomous_databases env v cid ls wl).1.items = []) := by
  refine ⟨?_, ?_, ?_⟩
  · intro env cfg v cid ls c henv hc hne hl
    refine ⟨?_, ?_, ?_⟩ <;>
      simp [list_compute_instances, hc, truthy, hne, list_instances_sdk, henv, hl]
  · intro env cfg v cid ls c henv hc hne hl
    refine ⟨?_, ?_, ?_⟩ <;>
      simp [list_database_systems, hc, truthy, hne, list_databases_sdk, henv, hl]
  · intro env cfg v cid ls wl c henv hc hne hl
    refine ⟨?_, ?_, ?_⟩ <;>
      simp [list_autonomous_databases, hc, truthy, hne, list_autonomous_databases_sdk,
            henv, hl]

/-- C8 witness: the three listing tools on a vendor reporting no matching
resources. -/
theorem C8_empty_listing_witness :
    ((list_compute_instances envA vEmpty (some "c1") "RUNNING").1.success = true ∧
     (list_compute_instances envA vEmpty (some "c1") "RUNNING").1.count = 0 ∧
     (list_compute_instances envA vEmpty (some "c1") "RUNNING").1.items = []) ∧
    ((list_database_systems envA vEmpty (some "c1") none).1.success = true ∧
     (list_database_systems envA vEmpty (some "c1") none).1.count = 0 ∧
     (list_database_systems envA vEmpty (some "c1") none).1.items = []) ∧
    ((list_autonomous_databases envA vEmpty (some "c1") none none).1.success = true ∧
     (list_autonomous_databases envA vEmpty (some "c1") none none).1.count = 0 ∧
     (list_autonomous_databases envA vEmpty (some "c1") none none).1.items = []) :=
  ⟨C8_empty_listing.1 envA cfgA vEmpty (some "c1") "RUNNING" "c1" rfl rfl (by decide) rfl,
   C8_empty_listing.2.1 envA cfgA vEmpty (some "c1") none "c1" rfl rfl (by decide) rfl,
   C8_empty_listing.2.2 envA cfgA vEmpty (some "c1") none none "c1" rfl rfl (by decide) rfl⟩

/-- C9: for every details request whose vendor lookup raises (a nonexistent
identifier), the tool returns `success` false, a non-empty `error` equal to
the exception text, and an empty payload — an empty instance object and an
empty network-interface list for `get_instance_details`, an empty
autonomous-database object for `get_autonomous_database_details`. -/
theorem C9_details_error_empty_payload :
    (∀ env cfg v instance_id cid inclNet e, env.init = some cfg → e ≠ "" →
      v.getInstance instance_id = .error e →
      (get_instance_details env v instance_id cid inclNet).1.success = false ∧
      (get_instance_details env v instance_id cid inclNet).1.error = some e ∧
      (get_instance_details env v instance_id cid inclNet).1.error ≠ some "" ∧
      (get_instance_details env v instance_id cid inclNet).1.instance_ = [] ∧
      (get_instance_details env v instance_id cid inclNet).1.network_interfaces = []) ∧
    (∀ env cfg v adb_id e, env.init = some cfg → e ≠ "" →
      v.getAdb adb_id = .error e →
      (get_autonomous_database_details env v adb_id).1.success = false ∧
      (get_autonomous_database_details env v adb_id).1.error = some e ∧
      (get_autonomous_database_details env v adb_id).1.error ≠ some "" ∧
      (get_autonomous_database_details env v adb_id).1.autonomous_database = []) := by
  constructor
  · intro env cfg v iid cid inclNet e henv hne hget
    refine ⟨?_, ?_, ?_, ?_, ?_⟩ <;>
      simp [get_instance_details, get_instance_details_sdk, henv, hget, hne]
  · intro env cfg v aid e henv hne hget
    refine ⟨?_, ?_, ?_, ?_⟩ <;>
      simp [get_autonomous_database_details, get_autonomous_database_details_sdk,
            adbDetailFail, henv, hget, hne]

/-- C9 witness: details requests for identifiers the vendor rejects with a
404 error. -/
theorem C9_details_error_witness :
    ((get_instance_details envA vNotFound "missing" (some "c1") true).1.success = false ∧
     (get_instance_details envA vNotFound "missing" (some "c1") true).1.error =
       some "404 NotFound: resource does not exist" ∧
     (get_instance_details envA vNotFound "missing" (some "c1") true).1.error ≠ some "" ∧
     (get_instance_details envA vNotFound "missing" (some "c1") true).1.instance_ = [] ∧
     (get_instance_details envA vNotFound "missing" (some "c1") true).1.network_interfaces
       = []) ∧
    ((get_autonomous_database_details envA vNotFound "missing").1.success = false ∧
     (get_autonomous_database_details envA vNotFound "missing").1.error =
       some "404 NotFound: resource does not exist" ∧
     (get_autonomous_database_details envA vNotFound "missing").1.error ≠ some "" ∧
     (get_autonomous_database_details envA vNotFound "missing").1.autonomous_database
       = []) :=
  ⟨C9_details_error_empty_payload.1 envA cfgA vNotFound "missing" (some "c1") true
     "404 NotFound: resource does not exist" rfl (by decide) rfl,
   C9_details_error_empty_payload.2 envA cfgA vNotFound "missing"
     "404 NotFound: resource does not exist" rfl (by decide) rfl⟩

/-- C10 (amended): a scale call with all five scaling parameters absent never
sends an update request to the vendor; when the database client is
initialized and the preliminary `get_autonomous_database` succeeds, it
returns `success` false with the error `"No scaling parameters provided"`.
(When the preliminary get itself raises, that error is reported instead —
the parameter check runs after the preliminary get.) -/
theorem C10_no_params_amended :
    (∀ env v adb_id,
      (scale_autonomous_database env v adb_id none none none none none).2.filter
        VCall.isUpdateAdb = []) ∧
    (∀ env cfg v adb_id adb, env.init = some cfg → v.getAdb adb_id = .ok adb →
      (scale_autonomous_database env v adb_id none none none none none).1.success = false ∧
      (scale_autonomous_database env v adb_id none none none none none).1.error =
        some "No scaling parameters provided" ∧
      (scale_autonomous_database env v adb_id none none none none none).1.summary =
        "Failed to scale autonomous database: No scaling parameters provided") := by
  constructor
  · intro env v aid
    cases henv : env.init with
    | none => simp [scale_autonomous_database, henv, actFail]
    | some cfg =>
      cases hget : v.getAdb aid with
      | error e =>
        simp [scale_autonomous_database, scale_autonomous_database_sdk, henv, hget,
              actFail, VCall.isUpdateAdb]
      | ok adb =>
        simp [scale_autonomous_database, scale_autonomous_database_sdk, henv, hget,
              scale_changes, actFail, VCall.isUpdateAdb]
  · intro env cfg v aid adb henv hget
    refine ⟨?_, ?_, ?_⟩ <;>
      simp [scale_autonomous_database, scale_autonomous_database_sdk, henv, hget,
            scale_changes, actFail]

/-- C10 witness: a no-parameter scale call against an existing database. -/
theorem C10_no_params_witness :
    (scale_autonomous_database envA vOk "a1" none none none none none).2.filter
      VCall.isUpdateAdb = [] ∧
    (scale_autonomous_database envA vOk "a1" none none none none none).1.success = false ∧
    (scale_autonomous_database envA vOk "a1" none none none none none).1.error =
      some "No scaling parameters provided" :=
  ⟨C10_no_params_amended.1 envA vOk "a1",
   (C10_no_params_amended.2 envA cfgA vOk "a1" adbA rfl rfl).1,
   (C10_no_params_amended.2 envA cfgA vOk "a1" adbA rfl rfl).2.1⟩

/-- C10 counterexample: with all five parameters absent but a vendor whose
preliminary get raises, the tool reports the lookup error, not
`"No scaling parameters provided"` — the claim's promised error text does
not hold for every such call. -/
theorem C10_no_params_counterexample :
    (scale_autonomous_database envA vNotFound "a1" none none none none none).1.success
      = false ∧
    (scale_autonomous_database envA vNotFound "a1" none none none none none).1.error =
      some "404 NotFound: resource does not exist" ∧
    some "404 NotFound: resource does not exist" ≠ some "No scaling parameters provided" :=
  ⟨rfl, rfl, by decide⟩

/-- C7: every lifecycle action (instance, database system, autonomous
database, autonomous-database scale) never issues a work-request poll (the
vendor-call trace contains no `pollWorkRequest`, on any path), and on vendor
acceptance returns an initiated-style result carrying the accept response's
work request id and an `initiated_at` timestamp. -/
theorem C7_fire_and_forget :
    (∀ env v instance_id action cid,
      (instance_action_sdk env v instance_id action cid).2.filter VCall.isPoll = []) ∧
    (∀ env v db_system_id action,
      (database_action_sdk env v db_system_id action).2.filter VCall.isPoll = []) ∧
    (∀ env v adb_id action,
      (autonomous_database_action_sdk env v adb_id action).2.filter VCall.isPoll = []) ∧
    (∀ env v adb_id p,
      (scale_autonomous_database_sdk env v adb_id p).2.filter VCall.isPoll = []) ∧
    (∀ env cfg v instance_id action cid inst r, env.init = some cfg →
      validInstanceActions.contains (pyUpper action) = true →
      v.getInstance instance_id = .ok inst →
      v.instanceAction instance_id (pyUpper action) = .ok r →
      (instance_action_sdk env v instance_id action cid).1 =
        .ok { instance_id := instance_id, instance_name := inst.display_name,
              action := pyUpper action, previous_state := inst.lifecycle_state,
              work_request_id := r.workRequestId, request_id := r.requestId,
              initiated_at := env.now ++ "Z" }) ∧
    (∀ env cfg v db_system_id action db r t, env.init = some cfg →
      validDatabaseActions.contains (pyUpper action) = true →
      v.getDbSystem db_system_id = .ok db →
      db_action_dispatch v db_system_id (pyUpper action) = (.ok r, t) →
      (database_action_sdk env v db_system_id action).1 =
        .ok { db_system_id := db_system_id, db_system_name := db.display_name,
              action := pyUpper action, previous_state := db.lifecycle_state,
              work_request_id := r.workRequestId, request_id := r.requestId,
              initiated_at := env.now ++ "Z" }) ∧
    (∀ env cfg v adb_id action adb r t, env.init = some cfg →
      validAdbActions.contains (pyUpper action) = true →
      v.getAdb adb_id = .ok adb →
      adb_action_dispatch v adb_id (pyUpper action) = (.ok r, t) →
      (autonomous_database_action_sdk env v adb_id action).1 =
        .ok { autonomous_database_id := adb_id, database_name := adb.display_name,
              db_name := adb.db_name, action := pyUpper action,
              previous_state := adb.lifecycle_state, work_request_id := r.workRequestId,
              request_id := r.requestId, initiated_at := env.now ++ "Z" }) ∧
    (∀ env cfg v adb_id p adb r, env.init = some cfg →
      (scale_changes p).isEmpty = false →
      v.getAdb adb_id = .ok adb →
      v.updateAdb adb_id (update_details_of p) = .ok r →
      (scale_autonomous_database_sdk env v adb_id p).1 =
        .ok { autonomous_database_id := adb_id, database_name := adb.display_name,
              db_name := adb.db_name, action := "SCALE", changes := scale_changes p,
              work_request_id := r.workRequestId, request_id := r.requestId,
              initiated_at := env.now ++ "Z" }) := by
  refine ⟨?_, ?_, ?_, ?_, ?_, ?_, ?_, ?_⟩
  · intro env v iid a cid
    unfold instance_action_sdk
    cases henv : env.init
    · rfl
    · dsimp only
      split
      · rfl
      · cases hg : v.getInstance iid with
        | error e => rfl
        | ok inst => cases ha : v.instanceAction iid (pyUpper a) <;> rfl
  · intro env v did a
    unfold database_action_sdk
    cases henv : env.init
    · rfl
    · dsimp only
      split
      · rfl
      · cases hg : v.getDbSystem did with
        | error e => rfl
        | ok db =>
          have hnp := db_dispatch_trace_no_poll v did (pyUpper a)
          rcases hd : db_action_dispatch v did (pyUpper a) with ⟨res, t⟩
          rw [hd] at hnp
          cases res <;> simp_all [VCall.isPoll]
  · intro env v aid a
    unfold autonomous_database_action_sdk
    cases henv : env.init
    · rfl
    · dsimp only
      split
      · rfl
      · cases hg : v.getAdb aid with
        | error e => rfl
        | ok adb =>
          have hnp := adb_dispatch_trace_no_poll v aid (pyUpper a)
          rcases hd : adb_action_dispatch v aid (pyUpper a) with ⟨res, t⟩
          rw [hd] at hnp
          cases res <;> simp_all [VCall.isPoll]
  · intro env v aid p
    unfold scale_autonomous_database_sdk
    cases henv : env.init
    · rfl
    · dsimp only
      cases hg : v.getAdb aid with
      | error e => rfl
      | ok adb =>
        cases hc : (scale_changes p).isEmpty with
        | true => simp [hc, VCall.isPoll]
        | false =>
          cases hu : v.updateAdb aid (update_details_of p) <;> simp [hc, VCall.isPoll]
  · intro env cfg v iid a cid inst r henv hval hget hact
    have h2 : pyUpper a ∈ validInstanceActions := by simpa using hval
    simp [instance_action_sdk, henv, h2, hget, hact]
  · intro env cfg v did a db r t henv hval hget hd
    have h2 : pyUpper a ∈ validDatabaseActions := by simpa using hval
    simp [database_action_sdk, henv, h2, hget, hd]
  · intro env cfg v aid a adb r t henv hval hget hd
    have h2 : pyUpper a ∈ validAdbActions := by simpa using hval
    simp [autonomous_database_action_sdk, henv, h2, hget, hd]
  · intro env cfg v aid p adb r henv hne hget hupd
    simp [scale_autonomous_database_sdk, henv, hget, hne, hupd]

/-- C7 witness: concrete accepted actions on each resource kind, with the
returned work request id and timestamp, and poll-free traces. -/
theorem C7_fire_and_forget_witness :
    (instance_action_sdk envA vOk "i1" "START" none).2.filter VCall.isPoll = [] ∧
    (instance_action_sdk envA vOk "i1" "START" none).1 =
      .ok { instance_id := "i1", instance_name := instA.display_name,
            action := pyUpper "START", previous_state := instA.lifecycle_state,
            work_request_id := acceptA.workRequestId, request_id := acceptA.requestId,
            initiated_at := envA.now ++ "Z" } ∧
    (database_action_sdk envA vOk "d1" "STOP").1 =
      .ok { db_system_id := "d1", db_system_name := dbA.display_name,
            action := pyUpper "STOP", previous_state := dbA.lifecycle_state,
            work_request_id := acceptA.workRequestId, request_id := acceptA.requestId,
            initiated_at := envA.now ++ "Z" } ∧
    (autonomous_database_action_sdk envA vOk "a1" "RESTART").1 =
      .ok { autonomous_database_id := "a1", database_name := adbA.display_name,
            db_name := adbA.db_name, action := pyUpper "RESTART",
            previous_state := adbA.lifecycle_state,
            work_request_id := acceptA.workRequestId, request_id := acceptA.requestId,
            initiated_at := envA.now ++ "Z" } ∧
    (scale_autonomous_database_sdk envA vOk "a1" { compute_count := some 4 }).1 =
      .ok { autonomous_database_id := "a1", database_name := adbA.display_name,
            db_name := adbA.db_name, action := "SCALE",
            changes := scale_changes { compute_count := some 4 },
            work_request_id := acceptA.workRequestId, request_id := acceptA.requestId,
            initiated_at := envA.now ++ "Z" } :=
  ⟨C7_fire_and_forget.1 envA vOk "i1" "START" none,
   C7_fire_and_forget.2.2.2.2.1 envA cfgA vOk "i1" "START" none instA acceptA
     rfl (by decide) rfl rfl,
   C7_fire_and_forget.2.2.2.2.2.1 envA cfgA vOk "d1" "STOP" dbA acceptA
     [.stopDbSystem "d1"] rfl (by decide) rfl rfl,
   C7_fire_and_forget.2.2.2.2.2.2.1 envA cfgA vOk "a1" "RESTART" adbA acceptA
     [.restartAdb "a1"] rfl (by decide) rfl rfl,
   C7_fire_and_forget.2.2.2.2.2.2.2 envA cfgA vOk "a1" { compute_count := some 4 }
     adbA acceptA rfl (by decide) rfl rfl⟩

/-- C2 (amended): in `list_compute_instances`, when the SDK listing raises,
the CLI fallback is attempted exactly once with the same compartment and
lifecycle-state filters, and if it also raises the tool returns the failure
response — the trace shows one SDK attempt and one CLI attempt, so neither
path is retried.  In `list_instances_with_network`, however, the CLI
fallback is used only when the SDK client is unavailable: when the client is
initialized and the SDK listing raises, the tool fails without attempting
the fallback (its trace contains the single SDK call). -/
theorem C2_fallback_policy_amended :
    (∀ env cfg v cid ls e, env.init = some cfg →
      truthy (pyOrStr cid (get_compartment_id env)) = true →
      v.listInstances ((pyOrStr cid (get_compartment_id env)).getD "") ls = .error e →
      (list_compute_instances env v cid ls).2 =
        [.listInstances ((pyOrStr cid (get_compartment_id env)).getD "") ls,
         .cli (cli_list_cmd ((pyOrStr cid (get_compartment_id env)).getD "") ls)] ∧
      (∀ e2, (list_instances_cli_fallback v
                ((pyOrStr cid (get_compartment_id env)).getD "") ls).1 = .error e2 →
        (list_compute_instances env v cid ls).1.success = false ∧
        (list_compute_instances env v cid ls).1.error = some e2 ∧
        (list_compute_instances env v cid ls).1.summary =
          "Failed to list compute instances: " ++ e2)) ∧
    (∀ env cfg v cid ls e, env.init = some cfg →
      truthy (pyOrStr cid (get_compartment_id env)) = true →
      v.listInstances ((pyOrStr cid (get_compartment_id env)).getD "") ls = .error e →
      (list_instances_with_network env v cid ls).1.success = false ∧
      (list_instances_with_network env v cid ls).1.error = some e ∧
      (list_instances_with_network env v cid ls).2 =
        [.listInstances ((pyOrStr cid (get_compartment_id env)).getD "") ls]) := by
  constructor
  · intro env cfg v cid ls e henv ht hsdk
    rcases hcli : list_instances_cli_fallback v
      ((pyOrStr cid (get_compartment_id env)).getD "") ls with ⟨res, t2⟩
    have htr := cli_fallback_trace v ((pyOrStr cid (get_compartment_id env)).getD "") ls
    rw [hcli] at htr
    simp only at htr
    constructor
    · cases res <;>
        simp [list_compute_instances, ht, list_instances_sdk, henv, hsdk, hcli, htr,
              listFailResp]
    · intro e2 h2
      cases res with
      | error e3 =>
        have he3 : e3 = e2 := by simpa using h2
        subst he3
        refine ⟨?_, ?_, ?_⟩ <;>
          simp [list_compute_instances, ht, list_instances_sdk, henv, hsdk, hcli,
                listFailResp]
      | ok d => simp at h2
  · intro env cfg v cid ls e henv ht hsdk
    refine ⟨?_, ?_, ?_⟩ <;>
      simp [list_instances_with_network, ht, list_instances_sdk, henv, hsdk, netListFail]

/-- C2 witness: a vendor where the SDK listing and the CLI both fail —
`list_compute_instances` attempts both exactly once and fails;
`list_instances_with_network` fails with only the SDK call in its trace. -/
theorem C2_fallback_policy_witness :
    (list_compute_instances envA vBothDown (some "c1") "RUNNING").2 =
      [.listInstances "c1" "RUNNING", .cli (cli_list_cmd "c1" "RUNNING")] ∧
    (list_compute_instances envA vBothDown (some "c1") "RUNNING").1.success = false ∧
    (list_compute_instances envA vBothDown (some "c1") "RUNNING").1.error =
      some "CLI command failed: oci CLI not installed" ∧
    (list_instances_with_network envA vBothDown (some "c1") "RUNNING").1.success = false ∧
    (list_instances_with_network envA vBothDown (some "c1") "RUNNING").2 =
      [.listInstances "c1" "RUNNING"] :=
  ⟨(C2_fallback_policy_amended.1 envA cfgA vBothDown (some "c1") "RUNNING"
      "ServiceError 500" rfl (by decide) rfl).1,
   ((C2_fallback_policy_amended.1 envA cfgA vBothDown (some "c1") "RUNNING"
      "ServiceError 500" rfl (by decide) rfl).2
      "CLI command failed: oci CLI not installed" rfl).1,
   ((C2_fallback_policy_amended.1 envA cfgA vBothDown (some "c1") "RUNNING"
      "ServiceError 500" rfl (by decide) rfl).2
      "CLI command failed: oci CLI not installed" rfl).2.1,
   (C2_fallback_policy_amended.2 envA cfgA vBothDown (some "c1") "RUNNING"
      "ServiceError 500" rfl (by decide) rfl).1,
   (C2_fallback_policy_amended.2 envA cfgA vBothDown (some "c1") "RUNNING"
      "ServiceError 500" rfl (by decide) rfl).2.2⟩

/-- C2 counterexample: with the SDK client initialized, an SDK listing error
in `list_instances_with_network` does NOT trigger the CLI fallback, even
though the CLI would have succeeded — the tool fails with no CLI call in its
trace, contradicting the claim for this instance-listing request. -/
theorem C2_no_fallback_counterexample :
    vSdkDown.listInstances "c1" "RUNNING" = .error "ServiceError 500" ∧
    (vSdkDown.cliRun (cli_list_cmd "c1" "RUNNING")).returncode = 0 ∧
    (list_instances_cli_fallback vSdkDown "c1" "RUNNING").1 =
      .ok [cli_instance_record cliInstA] ∧
    (list_instances_with_network envA vSdkDown (some "c1") "RUNNING").1.success = false ∧
    (list_instances_with_network envA vSdkDown (some "c1") "RUNNING").2.filter
      VCall.isCli = [] :=
  ⟨rfl, rfl, rfl, rfl, rfl⟩

/-- C5: for every listing operation that succeeds, the `count` field equals
the length of the returned resource sequence, and the sequence is the
normalization of the data of a single vendor listing call (for the compute
tool, the SDK call when it succeeded, otherwise the CLI call; the
database-system and autonomous-database tools issue exactly the one SDK
listing call shown in their trace). -/
theorem C5_count_matches_items :
    (∀ env v cid ls,
      (list_compute_instances env v cid ls).1.success = true →
      (list_compute_instances env v cid ls).1.count =
        (list_compute_instances env v cid ls).1.items.length ∧
      ((∃ cfg l, env.init = some cfg ∧
          v.listInstances ((pyOrStr cid (get_compartment_id env)).getD "") ls = .ok l ∧
          (list_compute_instances env v cid ls).1.items =
            l.map (sdk_instance_record cfg)) ∨
       (∃ d, (list_instances_cli_fallback v
                ((pyOrStr cid (get_compartment_id env)).getD "") ls).1 = .ok d ∧
          (list_compute_instances env v cid ls).1.items = d))) ∧
    (∀ env v cid ls,
      (list_database_systems env v cid ls).1.success = true →
      (list_database_systems env v cid ls).1.count =
        (list_database_systems env v cid ls).1.items.length ∧
      (∃ cfg l, env.init = some cfg ∧
        v.listDbSystems ((pyOrStr cid (get_compartment_id env)).getD "")
          (pyOpt ls) = .ok l ∧
        (list_database_systems env v cid ls).1.items = l.map db_system_record ∧
        (list_database_systems env v cid ls).2 =
          [.listDbSystems ((pyOrStr cid (get_compartment_id env)).getD "") (pyOpt ls)])) ∧
    (∀ env v cid ls wl,
      (list_autonomous_databases env v cid ls wl).1.success = true →
      (list_autonomous_databases env v cid ls wl).1.count =
        (list_autonomous_databases env v cid ls wl).1.items.length ∧
      (∃ cfg l, env.init = some cfg ∧
        v.listAdbs ((pyOrStr cid (get_compartment_id env)).getD "")
          (pyOpt ls) (pyOpt wl) = .ok l ∧
        (list_autonomous_databases env v cid ls wl).1.items = l.map adb_record ∧
        (list_autonomous_databases env v cid ls wl).2 =
          [.listAdbs ((pyOrStr cid (get_compartment_id env)).getD "")
            (pyOpt ls) (pyOpt wl)])) := by
  refine ⟨?_, ?_, ?_⟩
  · intro env v cid ls
    cases ht : truthy (pyOrStr cid (get_compartment_id env)) with
    | false =>
      intro hsucc
      exfalso
      simp [list_compute_instances, ht, listFailResp] at hsucc
    | true =>
      rcases hsdk : list_instances_sdk env v
        ((pyOrStr cid (get_compartment_id env)).getD "") ls with ⟨res, t⟩
      cases res with
      | ok instances =>
        intro _
        obtain ⟨cfg, data, hcfg, hl, hinst, -⟩ := list_instances_sdk_ok hsdk
        constructor
        · simp [list_compute_instances, ht, hsdk]
        · exact Or.inl ⟨cfg, data, hcfg, hl,
            by simp [list_compute_instances, ht, hsdk, hinst]⟩
      | error e =>
        rcases hcli : list_instances_cli_fallback v
          ((pyOrStr cid (get_compartment_id env)).getD "") ls with ⟨res2, t2⟩
        cases res2 with
        | ok d =>
          intro _
          constructor
          · simp [list_compute_instances, ht, hsdk, hcli]
          · exact Or.inr ⟨d, rfl,
              by simp [list_compute_instances, ht, hsdk, hcli]⟩
        | error e2 =>
          intro hsucc
          exfalso
          simp [list_compute_instances, ht, hsdk, hcli, listFailResp] at hsucc
  · intro env v cid ls
    cases ht : truthy (pyOrStr cid (get_compartment_id env)) with
    | false =>
      intro hsucc
      exfalso
      simp [list_database_systems, ht, listFailResp] at hsucc
    | true =>
      cases henv : env.init with
      | none =>
        intro hsucc
        exfalso
        simp [list_database_systems, ht, henv, listFailResp] at hsucc
      | some cfg =>
        rcases hsdk : list_databases_sdk env v
          ((pyOrStr cid (get_compartment_id env)).getD "") ls with ⟨res, t⟩
        cases res with
        | error e =>
          intro hsucc
          exfalso
          simp [list_database_systems, ht, henv, hsdk, listFailResp] at hsucc
        | ok dbs =>
          intro _
          obtain ⟨cfg2, data, hcfg2, hl, hd, htr⟩ := list_databases_sdk_ok hsdk
          rw [henv] at hcfg2
          refine ⟨?_, cfg2, data, hcfg2, hl, ?_, ?_⟩ <;>
            simp [list_database_systems, ht, henv, hsdk, hd, htr]
  · intro env v cid ls wl
    cases ht : truthy (pyOrStr cid (get_compartment_id env)) with
    | false =>
      intro hsucc
      exfalso
      simp [list_autonomous_databases, ht, listFailResp] at hsucc
    | true =>
      cases henv : env.init with
      | none =>
        intro hsucc
        exfalso
        simp [list_autonomous_databases, ht, henv, listFailResp] at hsucc
      | some cfg =>
        rcases hsdk : list_autonomous_databases_sdk env v
          ((pyOrStr cid (get_compartment_id env)).getD "") ls wl with ⟨res, t⟩
        cases res with
        | error e =>
          intro hsucc
          exfalso
          simp [list_autonomous_databases, ht, henv, hsdk, listFailResp] at hsucc
        | ok adbs =>
          intro _
          obtain ⟨cfg2, data, hcfg2, hl, hd, htr⟩ := list_autonomous_databases_sdk_ok hsdk
          rw [henv] at hcfg2
          refine ⟨?_, cfg2, data, hcfg2, hl, ?_, ?_⟩ <;>
            simp [list_autonomous_databases, ht, henv, hsdk, hd, htr]

/-- C5 witness: the three listing tools succeeding on a concrete vendor. -/
theorem C5_count_witness :
    ((list_compute_instances envA vOk (some "c1") "RUNNING").1.count =
      (list_compute_instances envA vOk (some "c1") "RUNNING").1.items.length) ∧
    ((list_database_systems envA vOk (some "c1") none).1.count =
      (list_database_systems envA vOk (some "c1") none).1.items.length) ∧
    ((list_autonomous_databases envA vOk (some "c1") none none).1.count =
      (list_autonomous_databases envA vOk (some "c1") none none).1.items.length) :=
  ⟨(C5_count_matches_items.1 envA vOk (some "c1") "RUNNING" rfl).1,
   (C5_count_matches_items.2.1 envA vOk (some "c1") none rfl).1,
   (C5_count_matches_items.2.2 envA vOk (some "c1") none none rfl).1⟩

/-- C1 (amended): for every tool and every input and vendor behavior, no
exception escapes the tool (each embedded tool is total) and an exception
reaching the tool boundary produces `success` false with `error` equal to
the exception text and a summary of the form `"Failed to ...: <text>"`;
the connectivity test diverges from the claim: it converts step exceptions
into per-test `failed` entries and reports `success` false with a
tests-failed summary but no top-level `error` string. -/
theorem C1_tool_boundary_amended :
    (∀ env v cid ls, toolBoundary (list_compute_instances env v cid ls).1.success
      (list_compute_instances env v cid ls).1.summary
      (list_compute_instances env v cid ls).1.error
      "Failed to list compute instances: ") ∧
    (∀ env v iid cid inet, toolBoundary (get_instance_details env v iid cid inet).1.success
      (get_instance_details env v iid cid inet).1.summary
      (get_instance_details env v iid cid inet).1.error
      "Failed to get instance details: ") ∧
    (∀ env v cid ls, toolBoundary (list_instances_with_network env v cid ls).1.success
      (list_instances_with_network env v cid ls).1.summary
      (list_instances_with_network env v cid ls).1.error
      "Failed to list instances with network info: ") ∧
    (∀ env v iid cid, toolBoundary (start_compute_instance env v iid cid).1.success
      (start_compute_instance env v iid cid).1.summary
      (start_compute_instance env v iid cid).1.error
      "Failed to start instance: ") ∧
    (∀ env v iid cid ss, toolBoundary (stop_compute_instance env v iid cid ss).1.success
      (stop_compute_instance env v iid cid ss).1.summary
      (stop_compute_instance env v iid cid ss).1.error
      "Failed to stop instance: ") ∧
    (∀ env v iid cid sr, toolBoundary (restart_compute_instance env v iid cid sr).1.success
      (restart_compute_instance env v iid cid sr).1.summary
      (restart_compute_instance env v iid cid sr).1.error
      "Failed to restart instance: ") ∧
    (∀ env v iid, toolBoundary (get_compute_instance_state env v iid).1.success
      (get_compute_instance_state env v iid).1.summary
      (get_compute_instance_state env v iid).1.error
      "Failed to get instance state: ") ∧
    (∀ env v cid ls, toolBoundary (list_database_systems env v cid ls).1.success
      (list_database_systems env v cid ls).1.summary
      (list_database_systems env v cid ls).1.error
      "Failed to list database systems: ") ∧
    (∀ env v did, toolBoundary (start_database_system env v did).1.success
      (start_database_system env v did).1.summary
      (start_database_system env v did).1.error
      "Failed to start database system: ") ∧
    (∀ env v did, toolBoundary (stop_database_system env v did).1.success
      (stop_database_system env v did).1.summary
      (stop_database_system env v did).1.error
      "Failed to stop database system: ") ∧
    (∀ env v did, toolBoundary (get_database_system_state env v did).1.success
      (get_database_system_state env v did).1.summary
      (get_database_system_state env v did).1.error
      "Failed to get database system state: ") ∧
    (∀ env v cid ls wl, toolBoundary (list_autonomous_databases env v cid ls wl).1.success
      (list_autonomous_databases env v cid ls wl).1.summary
      (list_autonomous_databases env v cid ls wl).1.error
      "Failed to list autonomous databases: ") ∧
    (∀ env v aid, toolBoundary (get_autonomous_database_details env v aid).1.success
      (get_autonomous_database_details env v aid).1.summary
      (get_autonomous_database_details env v aid).1.error
      "Failed to get autonomous database details: ") ∧
    (∀ env v aid, toolBoundary (start_autonomous_database env v aid).1.success
      (start_autonomous_database env v aid).1.summary
      (start_autonomous_database env v aid).1.error
      "Failed to start autonomous database: ") ∧
    (∀ env v aid, toolBoundary (stop_autonomous_database env v aid).1.success
      (stop_autonomous_database env v aid).1.summary
      (stop_autonomous_database env v aid).1.error
      "Failed to stop autonomous database: ") ∧
    (∀ env v aid, toolBoundary (restart_autonomous_database env v aid).1.success
      (restart_autonomous_database env v aid).1.summary
      (restart_autonomous_database env v aid).1.error
      "Failed to restart autonomous database: ") ∧
    (∀ env v aid cc ccc ds ase asse,
      toolBoundary (scale_autonomous_database env v aid cc ccc ds ase asse).1.success
      (scale_autonomous_database env v aid cc ccc ds ase asse).1.summary
      (scale_autonomous_database env v aid cc ccc ds ase asse).1.error
      "Failed to scale autonomous database: ") ∧
    (∀ env v aid, toolBoundary (get_autonomous_database_state env v aid).1.success
      (get_autonomous_database_state env v aid).1.summary
      (get_autonomous_database_state env v aid).1.error
      "Failed to get autonomous database state: ") ∧
    (∀ env v, (test_core_services_connection env v).1.error = none) := by
  refine ⟨?_, ?_, ?_, ?_, ?_, ?_, ?_, ?_, ?_, ?_, ?_, ?_, ?_, ?_, ?_, ?_, ?_, ?_, ?_⟩
  · intro env v cid ls
    unfold list_compute_instances
    try dsimp only
    repeat' split
    all_goals first
      | exact Or.inl ⟨rfl, rfl⟩
      | exact Or.inr ⟨rfl, _, rfl, rfl⟩
  · intro env v iid cid inet
    unfold get_instance_details
    try dsimp only
    repeat' split
    all_goals first
      | exact Or.inl ⟨rfl, rfl⟩
      | exact Or.inr ⟨rfl, _, rfl, rfl⟩
  · intro env v cid ls
    unfold list_instances_with_network
    try dsimp only
    repeat' split
    all_goals first
      | exact Or.inl ⟨rfl, rfl⟩
      | exact Or.inr ⟨rfl, _, rfl, rfl⟩
  · intro env v iid cid
    unfold start_compute_instance
    try dsimp only
    repeat' split
    all_goals first
      | exact Or.inl ⟨rfl, rfl⟩
      | exact Or.inr ⟨rfl, _, rfl, rfl⟩
  · intro env v iid cid ss
    unfold stop_compute_instance
    try dsimp only
    repeat' split
    all_goals first
      | exact Or.inl ⟨rfl, rfl⟩
      | exact Or.inr ⟨rfl, _, rfl, rfl⟩
  · intro env v iid cid sr
    unfold restart_compute_instance
    try dsimp only
    repeat' split
    all_goals first
      | exact Or.inl ⟨rfl, rfl⟩
      | exact Or.inr ⟨rfl, _, rfl, rfl⟩
  · intro env v iid
    unfold get_compute_instance_state
    try dsimp only
    repeat' split
    all_goals first
      | exact Or.inl ⟨rfl, rfl⟩
      | exact Or.inr ⟨rfl, _, rfl, rfl⟩
  · intro env v cid ls
    unfold list_database_systems
    try dsimp only
    repeat' split
    all_goals first
      | exact Or.inl ⟨rfl, rfl⟩
      | exact Or.inr ⟨rfl, _, rfl, rfl⟩
  · intro env v did
    unfold start_database_system
    try dsimp only
    repeat' split
    all_goals first
      | exact Or.inl ⟨rfl, rfl⟩
      | exact Or.inr ⟨rfl, _, rfl, rfl⟩
  · intro env v did
    unfold stop_database_system
    try dsimp only
    repeat' split
    all_goals first
      | exact Or.inl ⟨rfl, rfl⟩
      | exact Or.inr ⟨rfl, _, rfl, rfl⟩
  · intro env v did
    unfold get_database_system_state
    try dsimp only
    repeat' split
    all_goals first
      | exact Or.inl ⟨rfl, rfl⟩
      | exact Or.inr ⟨rfl, _, rfl, rfl⟩
  · intro env v cid ls wl
    unfold list_autonomous_databases
    try dsimp only
    repeat' split
    all_goals first
      | exact Or.inl ⟨rfl, rfl⟩
      | exact Or.inr ⟨rfl, _, rfl, rfl⟩
  · intro env v aid
    unfold get_autonomous_database_details
    try dsimp only
    repeat' split
    all_goals first
      | exact Or.inl ⟨rfl, rfl⟩
      | exact Or.inr ⟨rfl, _, rfl, rfl⟩
  · intro env v aid
    unfold start_autonomous_database
    try dsimp only
    repeat' split
    all_goals first
      | exact Or.inl ⟨rfl, rfl⟩
      | exact Or.inr ⟨rfl, _, rfl, rfl⟩
  · intro env v aid
    unfold stop_autonomous_database
    try dsimp only
    repeat' split
    all_goals first
      | exact Or.inl ⟨rfl, rfl⟩
      | exact Or.inr ⟨rfl, _, rfl, rfl⟩
  · intro env v aid
    unfold restart_autonomous_database
    try dsimp only
    repeat' split
    all_goals first
      | exact Or.inl ⟨rfl, rfl⟩
      | exact Or.inr ⟨rfl, _, rfl, rfl⟩
  · intro env v aid cc ccc ds ase asse
    unfold scale_autonomous_database
    try dsimp only
    repeat' split
    all_goals first
      | exact Or.inl ⟨rfl, rfl⟩
      | exact Or.inr ⟨rfl, _, rfl, rfl⟩
  · intro env v aid
    unfold get_autonomous_database_state
    try dsimp only
    repeat' split
    all_goals first
      | exact Or.inl ⟨rfl, rfl⟩
      | exact Or.inr ⟨rfl, _, rfl, rfl⟩
  · intro env v
    unfold test_core_services_connection
    try dsimp only
    repeat' split
    all_goals rfl

/-- C1 counterexample: with clients initialized and a vendor whose compute
listing raises `"ServiceError 500"`, the connectivity test — one of the tool
operations the claim covers — has a step raise, returns `success` false, but
carries NO `error` string equal to the exception text (its `error` field is
absent), contradicting the claim. -/
theorem C1_connectivity_counterexample :
    vSdkDown.listInstances "c1" "RUNNING" = .error "ServiceError 500" ∧
    (test_core_services_connection envA vSdkDown).1.success = false ∧
    (test_core_services_connection envA vSdkDown).1.error = none :=
  ⟨rfl, rfl, rfl⟩

end OciCore
